import Mathlib

/-!
# OpenLinks — verification of the per-platform fetch-normalize-cache layer

Shallow embedding of the Netlify serverless functions of the OpenLinks
repository (`netlify/functions/github-activity.ts`, `youtube-activity.ts`,
`tiktok-activity.ts` and the Discord widget function).

Conventions of the embedding:
* Each serverless handler (the `export default async (req, ...)` function of a
  source file) becomes a pure Lean function of its query parameters, the
  current time in epoch milliseconds, the results of its upstream `fetch`
  calls (abstracted as oracle functions, since network I/O is outside the
  program), and the module-level in-memory cache.  It returns the HTTP
  response (status, structured JSON body, `Cache-Control` header), the cache
  after the call, and the list of upstream URLs contacted during the call.
* JavaScript `Date` values are epoch milliseconds (`Int`); Reddit/TikTok
  timestamps are epoch seconds, converted with `* 1000` exactly as in the
  source.
* JavaScript string idioms (`a || b` on nullable strings, `String#split`,
  `String#slice`, truthiness, template interpolation of `undefined`) are
  modelled by the `js*` helpers below, working on `List Char` so that every
  definition evaluates inside the kernel.
-/

/-! ## JavaScript-semantics string helpers -/

/-- JS `a || b` where `a` is a nullable/optional string: the fallback fires on
`null`/`undefined` and on the empty string (both falsy). -/
def jsOrOpt (a : Option String) (b : String) : String :=
  match a with
  | some s => if s = "" then b else s
  | none => b

/-- JS `a || b` for two plain strings (`""` is falsy). -/
def jsOrStr (a b : String) : String := if a = "" then b else a

/-- JS template interpolation `${x}` of a possibly-`undefined` value:
`undefined` prints as the string `"undefined"`. -/
def jsTemplate (a : Option String) : String :=
  match a with
  | some s => s
  | none => "undefined"

/-- JS string truthiness: non-empty. -/
def jsTruthy (s : String) : Bool := s != ""

/-- Lower-casing, ASCII as in the identifiers this code normalizes. -/
def jsToLower (s : String) : String := ⟨s.data.map Char.toLower⟩

/-- `String#startsWith`. -/
def jsStartsWith (s pre : String) : Bool := pre.data.isPrefixOf s.data

/-- `String#endsWith`. -/
def jsEndsWith (s suf : String) : Bool := suf.data.isSuffixOf s.data

/-- `String#slice(0, n)`. -/
def jsTake (s : String) (n : Nat) : String := ⟨s.data.take n⟩

/-- `String#slice(n)` (drop the first `n` characters). -/
def jsDrop (s : String) (n : Nat) : String := ⟨s.data.drop n⟩

def splitOnCharAux (sep : Char) : List Char → List Char → List (List Char)
  | [], acc => [acc.reverse]
  | c :: rest, acc =>
    if c = sep then acc.reverse :: splitOnCharAux sep rest []
    else splitOnCharAux sep rest (c :: acc)

/-- JS `String#split(sep)` for a one-character separator (the only form the
source uses: `'/'`, `','`, `'\n'`).  `"".split(sep) = [""]`. -/
def jsSplit (s : String) (sep : Char) : List String :=
  (splitOnCharAux sep s.data []).map String.mk

def removeFirstAux (pat : List Char) : List Char → List Char
  | [] => []
  | c :: rest =>
    if pat.isPrefixOf (c :: rest) then (c :: rest).drop pat.length
    else c :: removeFirstAux pat rest

/-- JS `String#replace(pat, '')` with a *string* pattern: removes only the
first occurrence of `pat`, anywhere in the string; no change if absent. -/
def jsRemoveFirst (s pat : String) : String := ⟨removeFirstAux pat.data s.data⟩

/-- Fueled worker for `jsReplaceAll`; fuel `= length` of the remaining input
suffices because each recursive call consumes at least one character (the
patterns used by the source are non-empty). -/
def replaceAllAux (pat repl : List Char) : Nat → List Char → List Char
  | 0, l => l
  | _ + 1, [] => []
  | fuel + 1, c :: rest =>
    if pat.isPrefixOf (c :: rest) then
      repl ++ replaceAllAux pat repl fuel ((c :: rest).drop pat.length)
    else c :: replaceAllAux pat repl fuel rest

/-- JS `String#replace(/pat/g, repl)` for a literal non-empty pattern. -/
def jsReplaceAll (s pat repl : String) : String :=
  ⟨replaceAllAux pat.data repl.data s.data.length s.data⟩

/-- JS whitespace for `String#trim` (ASCII part). -/
def isJsSpace (c : Char) : Bool :=
  c = ' ' || c = '\t' || c = '\n' || c = '\r' || c = '\x0b' || c = '\x0c'

def jsTrimList (l : List Char) : List Char :=
  ((l.dropWhile isJsSpace).reverse.dropWhile isJsSpace).reverse

/-- JS `String#trim`. -/
def jsTrim (s : String) : String := ⟨jsTrimList s.data⟩

/-- JS `parseInt` on strings like Discord discriminators: value of the leading
run of decimal digits, `NaN` (here `none`) when there is none. -/
def jsParseInt (s : String) : Option Nat :=
  let ds := s.data.takeWhile Char.isDigit
  if ds = [] then none
  else some (ds.foldl (fun n c => n * 10 + (c.toNat - 48)) 0)

/-- Stable insertion (x goes after existing elements it does not strictly
precede), matching JS `Array#sort` with a consistent comparator. -/
def stableInsert (le : α → α → Bool) (x : α) : List α → List α
  | [] => [x]
  | y :: ys => if le y x then y :: stableInsert le x ys else x :: y :: ys

/-- Stable sort (JS `Array#sort` is specified stable). -/
def stableSort (le : α → α → Bool) : List α → List α
  | [] => []
  | x :: xs => stableInsert le x (stableSort le xs)

/-! ## The replicated cache/handler pattern -/

/-- One cache entry: `{ data, timestamp }` as in every `CachedData` interface
of the source. -/
structure CacheEntry (α : Type) where
  data : α
  timestamp : Int
deriving DecidableEq

/-- The module-level `const cache: Record<string, CachedData> = {}` of each
function file, as an association list; assignment prepends and lookup takes
the most recent binding. -/
abbrev Cache (α : Type) := List (String × CacheEntry α)

/-- `cache[key]` lookup. -/
def cacheGet (cache : Cache α) (key : String) : Option (CacheEntry α) :=
  cache.lookup key

/-- `cache[key] = { data, timestamp: now }`. -/
def cacheSet (cache : Cache α) (key : String) (d : α) (now : Int) : Cache α :=
  (key, ⟨d, now⟩) :: cache

/-- The idiom `const cached = cache[key]; if (cached && (now - cached.timestamp) < TTL)`:
returns the cached payload exactly when an entry exists and is fresh. -/
def cacheFresh (cache : Cache α) (key : String) (now ttl : Int) : Option α :=
  match cacheGet cache key with
  | some entry => if now - entry.timestamp < ttl then some entry.data else none
  | none => none

/-- Structured JSON response body: either a platform payload together with the
`cached` flag, or an error object `{error: ..., widgetDisabled?: true}`. -/
inductive RespBody (α : Type) where
  | payload (data : α) (cached : Bool)
  | err (error : String) (widgetDisabled : Bool)
deriving DecidableEq

/-- A handler invocation's observable outcome: HTTP status, JSON body,
`Cache-Control` header (when set), cache state after the call, and the
upstream URLs contacted during the call. -/
structure HandlerResult (α : Type) where
  status : Nat
  body : RespBody α
  cacheControl : Option String
  cacheAfter : Cache α
  calls : List String
deriving DecidableEq

/-- The cached-round-trip contract of spec §8: calling `run` twice, the second
time against the cache left by the first, yields the same payload with
`cached:false` then `cached:true`. -/
def CachedRoundTrip {α : Type} (run : Int → Cache α → HandlerResult α)
    (cache : Cache α) (t t' : Int) : Prop :=
  ∃ d,
    (run t cache).status = 200 ∧
    (run t cache).body = RespBody.payload d false ∧
    (run t' (run t cache).cacheAfter).status = 200 ∧
    (run t' (run t cache).cacheAfter).body = RespBody.payload d true

/-- Error-taxonomy contract: every response is either a 200 payload or an
error object with a non-empty message and a status in `allowed`. -/
def OkOrError {α : Type} (r : HandlerResult α) (allowed : List Nat) : Prop :=
  (r.status = 200 ∧ ∃ d c, r.body = RespBody.payload d c) ∨
  (r.status ∈ allowed ∧ ∃ m w, r.body = RespBody.err m w ∧ m ≠ "")

/-! ## GitHub user adapter (`netlify/functions/github-activity.ts`, first module) -/

namespace GithubUser

/-- `CACHE_TTL = 5 * 60 * 1000`. -/
def CACHE_TTL : Int := 5 * 60 * 1000

/-- Raw `GitHubUser` API shape; `name`/`bio` are nullable. -/
structure GitHubUserRaw where
  login : String
  name : Option String
  avatar_url : String
  bio : Option String
  public_repos : Int
  followers : Int
deriving DecidableEq

structure ContributionDay where
  date : String
  count : Int
  level : Int
deriving DecidableEq

structure Contributions where
  days : List ContributionDay
  total : Int
deriving DecidableEq

structure ProcessedEvent where
  type : String
  repo : String
  time : String
  message : String
deriving DecidableEq

structure RepoRef where
  name : String
deriving DecidableEq

structure Commit where
  message : String
deriving DecidableEq

structure EventPayload where
  commits : Option (List Commit)
  action : Option String
  ref_type : Option String
  ref : Option String
deriving DecidableEq

/-- Raw `GitHubEvent`; `created_at` as epoch milliseconds. -/
structure GitHubEvent where
  type : String
  repo : RepoRef
  payload : EventPayload
  created_at : Int
deriving DecidableEq

/-- The processed user object built inline in the handler. -/
structure ProcUser where
  name : String
  login : String
  avatar : String
  bio : String
  repoCount : Int
  followers : Int
deriving DecidableEq

/-- The handler's response payload `{user, events, contributions}`. -/
structure Data where
  user : Option ProcUser
  events : List ProcessedEvent
  contributions : Contributions
deriving DecidableEq

/-- `formatRelativeTime`, with the `Date` values as epoch ms. -/
def formatRelativeTime (nowMs dateMs : Int) : String :=
  let diffMs := nowMs - dateMs
  let diffMins := diffMs.fdiv 60000
  let diffHours := diffMs.fdiv 3600000
  let diffDays := diffMs.fdiv 86400000
  if diffMins < 60 then toString diffMins ++ "m"
  else if diffHours < 24 then toString diffHours ++ "h"
  else if diffDays < 30 then toString diffDays ++ "d"
  else toString (diffDays.fdiv 30) ++ "mo"

/-- `event.repo.name.split('/')[1] || event.repo.name`. -/
def shortRepoName (name : String) : String :=
  match (jsSplit name '/').get? 1 with
  | some s => if s = "" then name else s
  | none => name

/-- `event.payload.commits?.[0]?.message?.split('\n')[0]` (undefined when the
commit list is missing or empty). -/
def firstCommitLine (commits : Option (List Commit)) : Option String :=
  match commits with
  | some (c :: _) => (jsSplit c.message '\n').get? 0
  | _ => none

/-- `processEvent` of the GitHub user module: type-dispatch over the event
kind; star/fork use the full `owner/repo` path, the rest the short name. -/
def processEvent (nowMs : Int) (event : GitHubEvent) : Option ProcessedEvent :=
  let fullRepo := event.repo.name
  let shortRepo := shortRepoName event.repo.name
  let time := formatRelativeTime nowMs event.created_at
  match event.type with
  | "PushEvent" =>
    let commitMsg := jsOrOpt (firstCommitLine event.payload.commits) "Pushed code"
    some { type := "push", repo := shortRepo, time,
           message := "Pushed to " ++ shortRepo ++ ": " ++ jsTake commitMsg 50 }
  | "PullRequestEvent" =>
    some { type := "pr", repo := shortRepo, time,
           message := jsTemplate event.payload.action ++ " PR on " ++ shortRepo }
  | "IssuesEvent" =>
    some { type := "issue", repo := shortRepo, time,
           message := jsTemplate event.payload.action ++ " issue on " ++ shortRepo }
  | "WatchEvent" =>
    some { type := "star", repo := fullRepo, time, message := "Starred " ++ fullRepo }
  | "ForkEvent" =>
    some { type := "fork", repo := fullRepo, time, message := "Forked " ++ fullRepo }
  | "CreateEvent" =>
    if event.payload.ref_type = some "repository" then
      some { type := "create", repo := shortRepo, time,
             message := "Created repository " ++ shortRepo }
    else
      some { type := "create", repo := shortRepo, time,
             message := "Created " ++ jsTemplate event.payload.ref_type ++ " "
               ++ jsTemplate event.payload.ref ++ " on " ++ shortRepo }
  | _ => none

/-- `fetchEvents` minus the network: what the function does to a successful
events response (`map(processEvent).filter(non-null).slice(0, 10)`). -/
def fetchEventsModel (nowMs : Int) (events : List GitHubEvent) : List ProcessedEvent :=
  ((events.map (processEvent nowMs)).filterMap id).take 10

/-- The `export default` handler of the GitHub user module.  The three
`fetch*` helpers are oracles from the username to their (soft-failed)
results. -/
def handler (usernameParam : Option String) (now : Int)
    (fetchUserInfo : String → Option GitHubUserRaw)
    (fetchEvents : String → List ProcessedEvent)
    (fetchContributions : String → Contributions)
    (cache : Cache Data) : HandlerResult Data :=
  match usernameParam with
  | none =>
    { status := 400, body := .err "Username required" false,
      cacheControl := none, cacheAfter := cache, calls := [] }
  | some username =>
    match cacheFresh cache username now CACHE_TTL with
    | some d =>
      { status := 200, body := .payload d true,
        cacheControl := some "public, max-age=300", cacheAfter := cache, calls := [] }
    | none =>
      let userInfo := fetchUserInfo username
      let events := fetchEvents username
      let contributions := fetchContributions username
      let data : Data :=
        { user := userInfo.map (fun u =>
            { name := jsOrOpt u.name u.login, login := u.login,
              avatar := u.avatar_url, bio := jsOrOpt u.bio "",
              repoCount := u.public_repos, followers := u.followers }),
          events := events, contributions := contributions }
      { status := 200, body := .payload data false,
        cacheControl := some "public, max-age=300",
        cacheAfter := cacheSet cache username data now,
        calls := ["https://api.github.com/users/" ++ username,
                  "https://api.github.com/users/" ++ username ++ "/events/public?per_page=30",
                  "https://github-contributions-api.jogruber.de/v4/" ++ username ++ "?y=last"] }

end GithubUser

/-! ## GitHub organization adapter (`github-activity.ts`, second module) -/

namespace GithubOrg

/-- `CACHE_TTL = 5 * 60 * 1000`. -/
def CACHE_TTL : Int := 5 * 60 * 1000

/-- Raw `GitHubOrg` API shape; `name`/`description` are nullable. -/
structure GitHubOrgRaw where
  name : Option String
  description : Option String
  avatar_url : String
  public_repos : Int
  followers : Int
deriving DecidableEq

structure ProcessedEvent where
  type : String
  repo : String
  time : String
  message : String
deriving DecidableEq

structure ProcessedRepo where
  name : String
  description : String
  stars : Int
  language : String
  updatedAt : String
  url : String
deriving DecidableEq

structure ProcOrg where
  name : String
  description : String
  avatar : String
  repoCount : Int
  memberCount : Int
deriving DecidableEq

/-- The handler's response payload `{org, events, repos}`. -/
structure Data where
  org : ProcOrg
  events : List ProcessedEvent
  repos : List ProcessedRepo
deriving DecidableEq

/-- The `export default` handler of the GitHub org module.  The three
`fetch*` helpers are oracles from the org name to their results;
`fetchOrgEvents`/`fetchOrgRepos` soft-fail to `[]`, `fetchOrgInfo` to
`null`, and the handler turns a missing org profile into a hard 404. -/
def handler (orgParam : Option String) (now : Int)
    (fetchOrgInfo : String → Option GitHubOrgRaw)
    (fetchOrgEvents : String → List ProcessedEvent)
    (fetchOrgRepos : String → List ProcessedRepo)
    (cache : Cache Data) : HandlerResult Data :=
  match orgParam with
  | none =>
    { status := 400, body := .err "Organization name required" false,
      cacheControl := none, cacheAfter := cache, calls := [] }
  | some org =>
    match cacheFresh cache org now CACHE_TTL with
    | some d =>
      { status := 200, body := .payload d true,
        cacheControl := some "public, max-age=300", cacheAfter := cache, calls := [] }
    | none =>
      let orgInfo := fetchOrgInfo org
      let events := fetchOrgEvents org
      let repos := fetchOrgRepos org
      let calls := ["https://api.github.com/orgs/" ++ org,
                    "https://api.github.com/orgs/" ++ org ++ "/events?per_page=30",
                    "https://api.github.com/orgs/" ++ org ++ "/repos?sort=pushed&per_page=12"]
      match orgInfo with
      | none =>
        { status := 404, body := .err "Organization not found" false,
          cacheControl := none, cacheAfter := cache, calls := calls }
      | some info =>
        let data : Data :=
          { org := { name := jsOrOpt info.name org,
                     description := jsOrOpt info.description "",
                     avatar := info.avatar_url,
                     repoCount := info.public_repos,
                     memberCount := info.followers },
            events := events, repos := repos }
        { status := 200, body := .payload data false,
          cacheControl := some "public, max-age=300",
          cacheAfter := cacheSet cache org data now, calls := calls }

end GithubOrg

/-! ## YouTube adapter (`netlify/functions/youtube-activity.ts`, first module) -/

namespace Youtube

/-- `CACHE_TTL = 5 * 60 * 1000`. -/
def CACHE_TTL : Int := 5 * 60 * 1000

structure Video where
  id : String
  title : String
  description : String
  url : String
  thumbnail : String
  publishedAt : String
  time : String
  views : Option Nat
  likes : Option Nat
  duration : Option String
  durationSeconds : Option Nat
deriving DecidableEq

structure Channel where
  id : String
  name : String
  handle : Option String
  url : String
  avatar : Option String
  subscribers : Option Nat
  totalViews : Option Nat
  videoCount : Option Nat
deriving DecidableEq

/-- The handler's response payload `{channel, videos}`. -/
structure Data where
  channel : Channel
  videos : List Video
deriving DecidableEq

/-- Result of `parseRSS` (`{channel, videos}`); the regex-based parser itself
is abstracted as a handler parameter since no claim depends on its
internals. -/
structure Parsed where
  channel : Channel
  videos : List Video
deriving DecidableEq

/-- Successful result of `fetchChannelDetails` (Invidious enrichment). -/
structure ChannelDetails where
  handle : Option String
  avatar : Option String
  subscribers : Option Nat
  totalViews : Option Nat
  videoCount : Option Nat
deriving DecidableEq

/-- Successful result of `fetchVideoDetails` (after its `|| 0` defaults). -/
structure VideoDetails where
  views : Nat
  likes : Nat
  durationSeconds : Nat
deriving DecidableEq

def pad2 (n : Nat) : String :=
  if n < 10 then "0" ++ toString n else toString n

/-- `formatDuration` (seconds are non-negative counts). -/
def formatDuration (seconds : Nat) : String :=
  let hours := seconds / 3600
  let mins := (seconds % 3600) / 60
  let secs := seconds % 60
  if hours > 0 then toString hours ++ ":" ++ pad2 mins ++ ":" ++ pad2 secs
  else toString mins ++ ":" ++ pad2 secs

/-- `formatRelativeTime` of the YouTube module (identical text to the GitHub
copies). -/
def formatRelativeTime (nowMs dateMs : Int) : String :=
  let diffMs := nowMs - dateMs
  let diffMins := diffMs.fdiv 60000
  let diffHours := diffMs.fdiv 3600000
  let diffDays := diffMs.fdiv 86400000
  if diffMins < 60 then toString diffMins ++ "m"
  else if diffHours < 24 then toString diffHours ++ "h"
  else if diffDays < 30 then toString diffDays ++ "d"
  else toString (diffDays.fdiv 30) ++ "mo"

/-- The RSS feed URL requested by `fetchRSS`. -/
def rssUrl (channelId : String) : String :=
  "https://www.youtube.com/feeds/videos.xml?channel_id=" ++ channelId

/-- The `export default` handler of the YouTube module.  `fetchRSS` is an
oracle from the channel id to the feed text (`none` on any fetch failure);
`parseRSS` is the (abstracted) RSS parser; `fetchChannelDetails` and
`fetchVideoDetails` are the Invidious enrichment oracles, `none` when every
instance failed. -/
def handler (channelIdParam : Option String) (now : Int)
    (fetchRSS : String → Option String)
    (parseRSS : String → Parsed)
    (fetchChannelDetails : String → Option ChannelDetails)
    (fetchVideoDetails : String → Option VideoDetails)
    (cache : Cache Data) : HandlerResult Data :=
  match channelIdParam with
  | none =>
    { status := 400, body := .err "Channel ID required" false,
      cacheControl := none, cacheAfter := cache, calls := [] }
  | some channelId =>
    if !jsStartsWith channelId "UC" || channelId.length != 24 then
      { status := 400,
        body := .err "Invalid channel ID format. Should start with UC and be 24 characters." false,
        cacheControl := none, cacheAfter := cache, calls := [] }
    else
      match cacheFresh cache channelId now CACHE_TTL with
      | some d =>
        { status := 200, body := .payload d true,
          cacheControl := some "public, max-age=300", cacheAfter := cache, calls := [] }
      | none =>
        match fetchRSS channelId with
        | none =>
          { status := 500, body := .err "Failed to fetch YouTube feed" false,
            cacheControl := none, cacheAfter := cache, calls := [rssUrl channelId] }
        | some rss =>
          let parsed := parseRSS rss
          let channel :=
            match fetchChannelDetails channelId with
            | some cd =>
              { parsed.channel with
                handle := cd.handle
                avatar := cd.avatar
                subscribers := cd.subscribers
                totalViews := cd.totalViews
                videoCount := cd.videoCount }
            | none => parsed.channel
          let enrichedVideos := (parsed.videos.take 4).map (fun v =>
            match fetchVideoDetails v.id with
            | some d =>
              { v with
                views := some d.views
                likes := some d.likes
                durationSeconds := some d.durationSeconds
                duration := some (formatDuration d.durationSeconds) }
            | none => v)
          let allVideos := enrichedVideos ++ parsed.videos.drop 4
          let data : Data := { channel := channel, videos := allVideos }
          { status := 200, body := .payload data false,
            cacheControl := some "public, max-age=300",
            cacheAfter := cacheSet cache channelId data now,
            calls := [rssUrl channelId, "invidious:channels:" ++ channelId]
              ++ (parsed.videos.take 4).map (fun v => "invidious:videos:" ++ v.id) }

end Youtube

/-! ## Substack adapter (`youtube-activity.ts`, second module) -/

namespace Substack

/-- `CACHE_TTL = 5 * 60 * 1000`. -/
def CACHE_TTL : Int := 5 * 60 * 1000

structure ProcessedPost where
  title : String
  subtitle : String
  slug : String
  url : String
  time : String
  publishedAt : String
  likes : Nat
  comments : Nat
  restacks : Nat
deriving DecidableEq

structure Publication where
  name : String
  description : String
  authorName : String
  logoUrl : String
  subscriberCount : Option Nat
deriving DecidableEq

/-- The handler's response payload `{publication, posts}`. -/
structure Data where
  publication : Publication
  posts : List ProcessedPost
deriving DecidableEq

/-- Successful result of `fetchPostStats` (after its `|| 0` defaults). -/
structure Stats where
  likes : Nat
  comments : Nat
  restacks : Nat
deriving DecidableEq

/-- `formatRelativeTime` of the Substack module (identical text to the GitHub
and YouTube copies). -/
def formatRelativeTime (nowMs dateMs : Int) : String :=
  let diffMs := nowMs - dateMs
  let diffMins := diffMs.fdiv 60000
  let diffHours := diffMs.fdiv 3600000
  let diffDays := diffMs.fdiv 86400000
  if diffMins < 60 then toString diffMins ++ "m"
  else if diffHours < 24 then toString diffHours ++ "h"
  else if diffDays < 30 then toString diffDays ++ "d"
  else toString (diffDays.fdiv 30) ++ "mo"

/-- The source's inline normalization
`publication.replace('.substack.com', '').toLowerCase()`: note that JS string
`replace` removes the *first occurrence anywhere*, case-sensitively, before
lower-casing. -/
def normalizePublication (publication : String) : String :=
  jsToLower (jsRemoveFirst publication ".substack.com")

/-- The claim's wording of the normalization: "strips a '.substack.com'
suffix and lowercases". -/
def claimedNormalizePublication (publication : String) : String :=
  jsToLower (if jsEndsWith publication ".substack.com"
             then jsTake publication (publication.length - ".substack.com".length)
             else publication)

/-- The feed URL requested by `fetchRSS`. -/
def feedUrl (pubName : String) : String :=
  "https://" ++ pubName ++ ".substack.com/feed"

/-- The per-post stats URL requested by `fetchPostStats`. -/
def statsUrl (pubName slug : String) : String :=
  "https://" ++ pubName ++ ".substack.com/api/v1/posts/" ++ slug

/-- The `export default` handler of the Substack module.  `fetchRSS` is an
oracle from the normalized publication name to the feed text; `parseRSS`
(taking the xml and the publication name) is the abstracted parser;
`fetchPostStats` the best-effort per-slug stats oracle. -/
def handler (publicationParam : Option String) (now : Int)
    (fetchRSS : String → Option String)
    (parseRSS : String → String → Publication × List ProcessedPost)
    (fetchPostStats : String → String → Option Stats)
    (cache : Cache Data) : HandlerResult Data :=
  match publicationParam with
  | none =>
    { status := 400, body := .err "Publication required" false,
      cacheControl := none, cacheAfter := cache, calls := [] }
  | some publication =>
    let pubName := normalizePublication publication
    match cacheFresh cache pubName now CACHE_TTL with
    | some d =>
      { status := 200, body := .payload d true,
        cacheControl := some "public, max-age=300", cacheAfter := cache, calls := [] }
    | none =>
      match fetchRSS pubName with
      | none =>
        { status := 500, body := .err "Failed to fetch Substack feed" false,
          cacheControl := none, cacheAfter := cache, calls := [feedUrl pubName] }
      | some rss =>
        let parsed := parseRSS rss pubName
        let pubInfo := parsed.1
        let posts := parsed.2
        let postsWithStats := (posts.take 5).map (fun post =>
          match fetchPostStats pubName post.slug with
          | some stats =>
            { post with
              likes := stats.likes
              comments := stats.comments
              restacks := stats.restacks }
          | none => post)
        let allPosts := postsWithStats ++ posts.drop 5
        let data : Data := { publication := pubInfo, posts := allPosts }
        { status := 200, body := .payload data false,
          cacheControl := some "public, max-age=300",
          cacheAfter := cacheSet cache pubName data now,
          calls := [feedUrl pubName]
            ++ (posts.take 5).map (fun post => statsUrl pubName post.slug) }

end Substack

/-! ## Reddit adapter (`youtube-activity.ts`, third module) -/

namespace Reddit

/-- `CACHE_TTL = 5 * 60 * 1000`. -/
def CACHE_TTL : Int := 5 * 60 * 1000

/-- Raw Reddit "about" user; nullable/optional fields as the code defends
them. -/
structure RedditUser where
  name : String
  icon_img : Option String
  link_karma : Int
  comment_karma : Int
  total_karma : Int
  created_utc : Int
  is_gold : Bool
  is_mod : Bool
  verified : Bool
  public_description : Option String
deriving DecidableEq

structure RedditActivityData where
  id : String
  author : String
  subreddit : String
  subreddit_name_prefixed : String
  score : Int
  created_utc : Int
  permalink : String
  distinguished : Option String
  title : Option String
  num_comments : Option Int
  body : Option String
  link_title : Option String
deriving DecidableEq

/-- One raw listing child: `kind` (`t1` = comment, `t3` = post) plus data. -/
structure RedditActivity where
  kind : String
  data : RedditActivityData
deriving DecidableEq

structure ProcessedActivity where
  id : String
  type : String
  subreddit : String
  score : Int
  time : String
  createdAt : Int
  permalink : String
  distinguished : Option String
  title : Option String
  numComments : Option Int
  body : Option String
  linkTitle : Option String
deriving DecidableEq

structure ProcessedUser where
  name : String
  iconUrl : String
  linkKarma : Int
  commentKarma : Int
  totalKarma : Int
  createdAt : Int
  accountAge : String
  isGold : Bool
  isMod : Bool
  verified : Bool
  bio : String
deriving DecidableEq

/-- The handler's response payload `{user, activities}`. -/
structure Data where
  user : ProcessedUser
  activities : List ProcessedActivity
deriving DecidableEq

/-- `formatRelativeTime` of the Reddit module: the timestamp is unix epoch
*seconds* (`new Date(timestamp * 1000)`), thresholds identical to the other
copies. -/
def formatRelativeTime (nowMs : Int) (timestamp : Int) : String :=
  let dateMs := timestamp * 1000
  let diffMs := nowMs - dateMs
  let diffMins := diffMs.fdiv 60000
  let diffHours := diffMs.fdiv 3600000
  let diffDays := diffMs.fdiv 86400000
  if diffMins < 60 then toString diffMins ++ "m"
  else if diffHours < 24 then toString diffHours ++ "h"
  else if diffDays < 30 then toString diffDays ++ "d"
  else toString (diffDays.fdiv 30) ++ "mo"

/-- `formatAccountAge`. -/
def formatAccountAge (nowMs : Int) (createdUtc : Int) : String :=
  let diffMs := nowMs - createdUtc * 1000
  let diffDays := diffMs.fdiv 86400000
  let diffYears := diffDays.fdiv 365
  let diffMonths := diffDays.fdiv 30
  if diffYears > 0 then toString diffYears ++ "y"
  else if diffMonths > 0 then toString diffMonths ++ "mo"
  else toString diffDays ++ "d"

/-- Worker for `text.replace(/\n+/g, ' ')`: each maximal run of newlines
becomes a single space (`inRun` records whether we are inside a run). -/
def collapseNewlinesAux : Bool → List Char → List Char
  | _, [] => []
  | inRun, c :: rest =>
    if c = '\n' then
      if inRun then collapseNewlinesAux true rest
      else ' ' :: collapseNewlinesAux true rest
    else c :: collapseNewlinesAux false rest

/-- `text.replace(/\n+/g, ' ')`. -/
def collapseNewlines (s : String) : String := ⟨collapseNewlinesAux false s.data⟩

/-- `truncateText`: collapse newline runs, trim, and if the cleaned text is
longer than `maxLength`, slice to `maxLength`, trim again and append an
ellipsis. -/
def truncateText (text : String) (maxLength : Nat) : String :=
  if text = "" then ""
  else
    let cleaned := jsTrim (collapseNewlines text)
    if cleaned.length ≤ maxLength then cleaned
    else jsTrim (jsTake cleaned maxLength) ++ "..."

/-- The claim's wording of the truncation: "truncating to the first
`maxLength` characters plus an ellipsis" — i.e. without the second trim the
source applies after slicing. -/
def truncateTextClaimed (text : String) (maxLength : Nat) : String :=
  if text = "" then ""
  else
    let cleaned := jsTrim (collapseNewlines text)
    if cleaned.length ≤ maxLength then cleaned
    else jsTake cleaned maxLength ++ "..."

/-- `decodeHtmlEntities`. -/
def decodeHtmlEntities (text : String) : String :=
  jsReplaceAll (jsReplaceAll (jsReplaceAll (jsReplaceAll (jsReplaceAll
    text "&amp;" "&") "&lt;" "<") "&gt;" ">") "&quot;" "\"") "&#39;" "'"

/-- `processActivity`. -/
def processActivity (nowMs : Int) (item : RedditActivity) : ProcessedActivity :=
  let isComment := item.kind = "t1"
  if isComment then
    { id := item.data.id, type := "comment",
      subreddit := item.data.subreddit_name_prefixed, score := item.data.score,
      time := formatRelativeTime nowMs item.data.created_utc,
      createdAt := item.data.created_utc,
      permalink := "https://reddit.com" ++ item.data.permalink,
      distinguished := item.data.distinguished,
      title := none, numComments := none,
      body := some (truncateText (jsOrOpt item.data.body "") 120),
      linkTitle := item.data.link_title }
  else
    { id := item.data.id, type := "post",
      subreddit := item.data.subreddit_name_prefixed, score := item.data.score,
      time := formatRelativeTime nowMs item.data.created_utc,
      createdAt := item.data.created_utc,
      permalink := "https://reddit.com" ++ item.data.permalink,
      distinguished := item.data.distinguished,
      title := item.data.title, numComments := item.data.num_comments,
      body := none, linkTitle := none }

/-- `processUser`. -/
def processUser (nowMs : Int) (user : RedditUser) : ProcessedUser :=
  { name := user.name,
    iconUrl := decodeHtmlEntities (jsOrOpt user.icon_img ""),
    linkKarma := user.link_karma, commentKarma := user.comment_karma,
    totalKarma := user.total_karma, createdAt := user.created_utc,
    accountAge := formatAccountAge nowMs user.created_utc,
    isGold := user.is_gold, isMod := user.is_mod, verified := user.verified,
    bio := jsOrOpt user.public_description "" }

/-- The source's inline normalization
`username.replace(/^u\//, '').toLowerCase()`: strip one leading `u/`, then
lower-case. -/
def normalizeUsername (username : String) : String :=
  jsToLower (if jsStartsWith username "u/" then jsDrop username 2 else username)

/-- The "about" URL requested by `fetchRedditUser`. -/
def aboutUrl (username : String) : String :=
  "https://www.reddit.com/user/" ++ username ++ "/about.json"

/-- The listing URL requested by `fetchRedditActivity`. -/
def listingUrl (username : String) : String :=
  "https://www.reddit.com/user/" ++ username ++ ".json?limit=15"

/-- The `export default` handler of the Reddit module.  `fetchRedditUser` and
`fetchRedditActivity` are oracles from the (normalized) username to their
soft-failed results. -/
def handler (usernameParam : Option String) (now : Int)
    (fetchRedditUser : String → Option RedditUser)
    (fetchRedditActivity : String → List RedditActivity)
    (cache : Cache Data) : HandlerResult Data :=
  match usernameParam with
  | none =>
    { status := 400, body := .err "Username required" false,
      cacheControl := none, cacheAfter := cache, calls := [] }
  | some username =>
    let normalizedUsername := normalizeUsername username
    match cacheFresh cache normalizedUsername now CACHE_TTL with
    | some d =>
      { status := 200, body := .payload d true,
        cacheControl := some "public, max-age=300", cacheAfter := cache, calls := [] }
    | none =>
      let user := fetchRedditUser normalizedUsername
      let activities := fetchRedditActivity normalizedUsername
      let calls := [aboutUrl normalizedUsername, listingUrl normalizedUsername]
      match user with
      | none =>
        { status := 404, body := .err "User not found or private" false,
          cacheControl := none, cacheAfter := cache, calls := calls }
      | some u =>
        let data : Data :=
          { user := processUser now u,
            activities := activities.map (processActivity now) }
        { status := 200, body := .payload data false,
          cacheControl := some "public, max-age=300",
          cacheAfter := cacheSet cache normalizedUsername data now, calls := calls }

end Reddit

/-! ## TikTok adapter (`netlify/functions/tiktok-activity.ts`, first module) -/

namespace Tiktok

/-- `CACHE_TTL = 10 * 60 * 1000` (longer due to scraping fragility). -/
def CACHE_TTL : Int := 10 * 60 * 1000

/-- Raw scraped TikTok user (after the scraper's own `|| 0`/`|| ''`
defaults). -/
structure TikTokUser where
  id : String
  uniqueId : String
  nickname : String
  avatarLarger : String
  signature : String
  verified : Bool
  secUid : String
  followerCount : Nat
  followingCount : Nat
  heartCount : Nat
  videoCount : Nat
  diggCount : Nat
deriving DecidableEq

/-- Successful result of `fetchVideoEmbed` (after its defaults: `html`,
`title`, `thumbnail` default to `''`). -/
structure Embed where
  html : String
  title : String
  thumbnail : String
deriving DecidableEq

structure ProcessedVideo where
  id : String
  caption : String
  time : String
  plays : Nat
  likes : Nat
  comments : Nat
  shares : Nat
  cover : String
  duration : Nat
  embedHtml : Option String
deriving DecidableEq

structure ProcUser where
  id : String
  username : String
  nickname : String
  avatar : String
  bio : String
  verified : Bool
  followers : Nat
  following : Nat
  likes : Nat
  videoCount : Nat
deriving DecidableEq

/-- The handler's response payload `{user, videos, _notice?}`. -/
structure Data where
  user : Option ProcUser
  videos : List ProcessedVideo
  _notice : Option String
deriving DecidableEq

/-- The `_notice` text attached when scraping found no user. -/
def scrapeNotice : String :=
  "TikTok scraping may have failed. Their page structure changes frequently."

/-- `videoIds` parsing: `url.searchParams.get('videoIds')?.split(',').filter(Boolean) || []`. -/
def splitVideoIds (p : Option String) : List String :=
  match p with
  | none => []
  | some s => (jsSplit s ',').filter (fun x => x != "")

/-- The composite cache key `` `${username}-${videoIds.join(',')}` ``. -/
def cacheKey (username : String) (videoIds : List String) : String :=
  username ++ "-" ++ String.intercalate "," videoIds

/-- The profile-page video URL built for each requested id. -/
def videoUrl (username videoId : String) : String :=
  "https://www.tiktok.com/@" ++ username ++ "/video/" ++ videoId

/-- The handler's `processedVideos` block: when video ids were requested,
fetch oEmbed data for the first 3 and keep those with a cover or embed
html. -/
def processedVideosFor (username : String) (videoIds : List String)
    (fetchVideoEmbed : String → Option Embed) : List ProcessedVideo :=
  if videoIds ≠ [] then
    let embeds := (videoIds.take 3).map (fun videoId =>
      match fetchVideoEmbed (videoUrl username videoId) with
      | some embed =>
        ({ id := videoId, caption := embed.title, time := "", plays := 0,
           likes := 0, comments := 0, shares := 0, cover := embed.thumbnail,
           duration := 0, embedHtml := some embed.html } : ProcessedVideo)
      | none =>
        ({ id := videoId, caption := "", time := "", plays := 0, likes := 0,
           comments := 0, shares := 0, cover := "", duration := 0,
           embedHtml := none } : ProcessedVideo))
    embeds.filter (fun v =>
      jsTruthy v.cover ||
        (match v.embedHtml with | some h => jsTruthy h | none => false))
  else []

/-- The `export default` handler of the TikTok module.  `scrapeProfile` is an
oracle for `scrapeTikTokProfile`'s user component (`none` when every
extraction strategy failed; its `videos` component is always `[]` in the
source); `fetchVideoEmbed` is the oEmbed oracle keyed by video URL. -/
def handler (usernameParam videoIdsParam : Option String) (now : Int)
    (scrapeProfile : String → Option TikTokUser)
    (fetchVideoEmbed : String → Option Embed)
    (cache : Cache Data) : HandlerResult Data :=
  match usernameParam with
  | none =>
    { status := 400, body := .err "Username required" false,
      cacheControl := none, cacheAfter := cache, calls := [] }
  | some username =>
    let videoIds := splitVideoIds videoIdsParam
    let key := cacheKey username videoIds
    match cacheFresh cache key now CACHE_TTL with
    | some d =>
      { status := 200, body := .payload d true,
        cacheControl := some "public, max-age=600", cacheAfter := cache, calls := [] }
    | none =>
      let rawUser := scrapeProfile username
      let processedVideos := processedVideosFor username videoIds fetchVideoEmbed
      let data : Data :=
        { user := rawUser.map (fun u =>
            { id := u.id, username := u.uniqueId, nickname := u.nickname,
              avatar := u.avatarLarger, bio := u.signature, verified := u.verified,
              followers := u.followerCount, following := u.followingCount,
              likes := u.heartCount, videoCount := u.videoCount }),
          videos := processedVideos,
          _notice := match rawUser with
            | some _ => none
            | none => some scrapeNotice }
      { status := 200, body := .payload data false,
        cacheControl := some "public, max-age=600",
        cacheAfter := cacheSet cache key data now,
        calls := ["https://www.tiktok.com/@" ++ username]
          ++ (videoIds.take 3).map (fun videoId =>
              "https://www.tiktok.com/oembed?url=" ++ videoUrl username videoId) }

end Tiktok

/-! ## Instagram adapter (`tiktok-activity.ts`, second module) -/

namespace Instagram

/-- `CACHE_TTL = 10 * 60 * 1000`. -/
def CACHE_TTL : Int := 10 * 60 * 1000

/-- Scraped Instagram user (after the scraper's own defaults). -/
structure InstagramUser where
  username : String
  fullName : String
  avatar : String
  bio : String
  verified : Bool
  followers : Nat
  following : Nat
  postCount : Nat
deriving DecidableEq

structure InstagramPost where
  id : String
  caption : String
  thumbnail : String
  permalink : String
  embedHtml : Option String
deriving DecidableEq

/-- The handler's response payload `{user, posts, _notice?}`. -/
structure Data where
  user : Option InstagramUser
  posts : List InstagramPost
  _notice : Option String
deriving DecidableEq

/-- The `_notice` text attached when scraping found no user. -/
def scrapeNotice : String :=
  "Instagram scraping may have failed. Their page structure changes frequently."

/-- `postIds` parsing, identical idiom to TikTok's `videoIds`. -/
def splitPostIds (p : Option String) : List String :=
  match p with
  | none => []
  | some s => (jsSplit s ',').filter (fun x => x != "")

/-- The composite cache key `` `${username.toLowerCase()}-${postIds.join(',')}` ``. -/
def cacheKey (username : String) (postIds : List String) : String :=
  jsToLower username ++ "-" ++ String.intercalate "," postIds

/-- The handler's `posts` block: when post ids were requested, fetch oEmbed
data for the first 6 and keep the non-null results. -/
def postsFor (postIds : List String)
    (fetchPostEmbed : String → Option InstagramPost) : List InstagramPost :=
  if postIds ≠ [] then (postIds.take 6).filterMap fetchPostEmbed
  else []

/-- The `export default` handler of the Instagram module.  `scrapeProfile` is
an oracle for `scrapeInstagramProfile` (`none` when every strategy failed);
`fetchPostEmbed` is the oEmbed oracle keyed by shortcode (`none` also when
the endpoint answered with an HTML error page). -/
def handler (usernameParam postIdsParam : Option String) (now : Int)
    (scrapeProfile : String → Option InstagramUser)
    (fetchPostEmbed : String → Option InstagramPost)
    (cache : Cache Data) : HandlerResult Data :=
  match usernameParam with
  | none =>
    { status := 400, body := .err "Username required" false,
      cacheControl := none, cacheAfter := cache, calls := [] }
  | some username =>
    let postIds := splitPostIds postIdsParam
    let key := cacheKey username postIds
    match cacheFresh cache key now CACHE_TTL with
    | some d =>
      { status := 200, body := .payload d true,
        cacheControl := some "public, max-age=600", cacheAfter := cache, calls := [] }
    | none =>
      let user := scrapeProfile username
      let posts := postsFor postIds fetchPostEmbed
      let data : Data :=
        { user := user, posts := posts,
          _notice := match user with
            | some _ => none
            | none => some scrapeNotice }
      { status := 200, body := .payload data false,
        cacheControl := some "public, max-age=600",
        cacheAfter := cacheSet cache key data now,
        calls := ["https://www.instagram.com/" ++ username ++ "/"]
          ++ (postIds.take 6).map (fun shortcode =>
              "https://api.instagram.com/oembed?url=https://www.instagram.com/p/"
                ++ shortcode ++ "/") }

end Instagram

/-! ## Discord adapter (the widget serverless function) -/

namespace Discord

/-- `CACHE_TTL = 5 * 60 * 1000`. -/
def CACHE_TTL : Int := 5 * 60 * 1000

structure DiscordChannel where
  id : String
  name : String
  position : Int
deriving DecidableEq

inductive MemberStatus where
  | online
  | idle
  | dnd
deriving DecidableEq

structure DiscordMember where
  id : String
  username : String
  discriminator : String
  avatar_url : String
  status : MemberStatus
  game : Option String
  channel_id : Option String
deriving DecidableEq

structure DiscordWidgetData where
  id : String
  name : String
  instant_invite : Option String
  channels : List DiscordChannel
  members : List DiscordMember
  presence_count : Int
deriving DecidableEq

structure ProcServer where
  id : String
  name : String
  inviteUrl : Option String
deriving DecidableEq

structure ProcStats where
  onlineCount : Int
  voiceChannelCount : Nat
  membersInVoice : Nat
deriving DecidableEq

structure ProcVoiceChannel where
  id : String
  name : String
  memberCount : Nat
deriving DecidableEq

structure ProcMember where
  id : String
  username : String
  avatar : String
  status : MemberStatus
  activity : Option String
deriving DecidableEq

/-- The handler's response payload `{server, stats, voiceChannels, members}`. -/
structure Data where
  server : ProcServer
  stats : ProcStats
  voiceChannels : List ProcVoiceChannel
  members : List ProcMember
deriving DecidableEq

/-- Outcome of the raw widget HTTP request. -/
inductive FetchOutcome (α : Type) where
  | ok (data : α)
  | httpError (status : Nat)
  | netError
deriving DecidableEq

/-- `fetchDiscordWidget` minus the network: every non-2xx response (403
widget-disabled, 404 unknown server, anything else) and every network error
collapse to `null`. -/
def fetchDiscordWidget (resp : FetchOutcome DiscordWidgetData) : Option DiscordWidgetData :=
  match resp with
  | .ok d => some d
  | .httpError _ => none
  | .netError => none

/-- `statusOrder = { online: 0, idle: 1, dnd: 2 }`. -/
def statusOrder : MemberStatus → Nat
  | .online => 0
  | .idle => 1
  | .dnd => 2

/-- Default avatar fallback
`` `https://cdn.discordapp.com/embed/avatars/${parseInt(discriminator) % 5}.png` ``
(`parseInt` of a digit-free string is `NaN`, which prints as `"NaN"`). -/
def defaultAvatar (discriminator : String) : String :=
  "https://cdn.discordapp.com/embed/avatars/" ++
    (match jsParseInt discriminator with
     | some n => toString (n % 5)
     | none => "NaN") ++ ".png"

/-- `processWidgetData`. -/
def processWidgetData (widget : DiscordWidgetData) : Data :=
  let membersInVoice := (widget.members.filter (fun m => m.channel_id ≠ none)).length
  let voiceChannels := stableSort (fun a b => b.memberCount ≤ a.memberCount)
    (widget.channels.map (fun channel =>
      ({ id := channel.id, name := channel.name,
         memberCount := (widget.members.filter
           (fun m => m.channel_id = some channel.id)).length } : ProcVoiceChannel)))
  let processedMembers :=
    (stableSort (fun a b => statusOrder a.status ≤ statusOrder b.status)
      (widget.members.map (fun member =>
        ({ id := member.id, username := member.username,
           avatar := jsOrStr member.avatar_url (defaultAvatar member.discriminator),
           status := member.status, activity := member.game } : ProcMember)))).take 20
  { server := { id := widget.id, name := widget.name, inviteUrl := widget.instant_invite },
    stats := { onlineCount := widget.presence_count,
               voiceChannelCount := widget.channels.length,
               membersInVoice := membersInVoice },
    voiceChannels := voiceChannels,
    members := processedMembers }

/-- The widget URL requested by `fetchDiscordWidget`. -/
def widgetUrl (serverId : String) : String :=
  "https://discord.com/api/guilds/" ++ serverId ++ "/widget.json"

/-- The `export default` handler of the Discord module.  `widgetResp` is the
oracle for the raw widget request; note that a failed fetch produces a 503
response with only an HTTP `Cache-Control` header — the in-memory cache is
*not* written on that branch. -/
def handler (serverIdParam : Option String) (now : Int)
    (widgetResp : String → FetchOutcome DiscordWidgetData)
    (cache : Cache Data) : HandlerResult Data :=
  match serverIdParam with
  | none =>
    { status := 400, body := .err "Server ID required" false,
      cacheControl := none, cacheAfter := cache, calls := [] }
  | some serverId =>
    match cacheFresh cache serverId now CACHE_TTL with
    | some d =>
      { status := 200, body := .payload d true,
        cacheControl := some "public, max-age=300", cacheAfter := cache, calls := [] }
    | none =>
      let widgetData := fetchDiscordWidget (widgetResp serverId)
      let calls := [widgetUrl serverId]
      match widgetData with
      | none =>
        { status := 503,
          body := .err "Could not fetch Discord widget. Make sure the widget is enabled in server settings." true,
          cacheControl := some "public, max-age=60", cacheAfter := cache, calls := calls }
      | some w =>
        let data := processWidgetData w
        { status := 200, body := .payload data false,
          cacheControl := some "public, max-age=300",
          cacheAfter := cacheSet cache serverId data now, calls := calls }

end Discord

/-! ## Concrete example inputs used by witnesses and counterexamples -/

/-- A `WatchEvent` on `octocat/Hello-World` (the spec's own example). -/
def exWatchEvent : GithubUser.GitHubEvent :=
  { type := "WatchEvent", repo := { name := "octocat/Hello-World" },
    payload := { commits := none, action := none, ref_type := none, ref := none },
    created_at := 0 }

/-- A `ForkEvent` on `octocat/Hello-World`. -/
def exForkEvent : GithubUser.GitHubEvent :=
  { exWatchEvent with type := "ForkEvent" }

/-- A 300-character comment body: 119 `a`s, one space, 180 `b`s — chosen so
that the 120-character cut ends on the space. -/
def exCommentBody : String := ⟨List.replicate 119 'a' ++ ' ' :: List.replicate 180 'b'⟩

/-- A raw Reddit listing child of kind `t1` carrying `exCommentBody`. -/
def exCommentItem : Reddit.RedditActivity :=
  { kind := "t1",
    data := { id := "c1", author := "alice", subreddit := "lean",
              subreddit_name_prefixed := "r/lean", score := 1, created_utc := 0,
              permalink := "/r/lean/c1", distinguished := none, title := none,
              num_comments := none, body := some exCommentBody,
              link_title := some "a post" } }

/-- A raw Reddit user for witnesses. -/
def exRedditUser : Reddit.RedditUser :=
  { name := "alice", icon_img := some "https://a/i.png", link_karma := 1,
    comment_karma := 2, total_karma := 3, created_utc := 0, is_gold := false,
    is_mod := false, verified := true, public_description := none }

/-- Two Substack `publication` parameters that agree after the *claimed*
normalization (strip a `.substack.com` suffix, lowercase) but not after the
code's replace-first-occurrence normalization. -/
def exPubA : String := "a.substack.com.b"

def exPubB : String := "a.substack.com.b.substack.com"

/-- Trivial Substack RSS oracle for concrete runs. -/
def exSubstackFetch : String → Option String := fun _ => some "xml"

/-- Trivial Substack parser for concrete runs: names the publication after the
normalized parameter. -/
def exSubstackParse : String → String → Substack.Publication × List Substack.ProcessedPost :=
  fun _ p => ({ name := p, description := "", authorName := "", logoUrl := "",
                subscriberCount := none }, [])

/-- Trivial Substack stats oracle for concrete runs. -/
def exSubstackStats : String → String → Option Substack.Stats := fun _ _ => none

/-- Widget oracle that always answers HTTP 403 (widget disabled). -/
def exWidget403 : String → Discord.FetchOutcome Discord.DiscordWidgetData :=
  fun _ => Discord.FetchOutcome.httpError 403

/-- A successful widget payload for witnesses. -/
def exWidgetData : Discord.DiscordWidgetData :=
  { id := "1", name := "srv", instant_invite := none, channels := [],
    members := [], presence_count := 0 }

/-- A raw GitHub user for witnesses. -/
def exGithubUser : GithubUser.GitHubUserRaw :=
  { login := "alice", name := none, avatar_url := "https://a/av.png",
    bio := none, public_repos := 1, followers := 2 }

/-- A raw GitHub org for witnesses. -/
def exGithubOrg : GithubOrg.GitHubOrgRaw :=
  { name := some "Acme", description := none, avatar_url := "https://a/o.png",
    public_repos := 3, followers := 4 }

/-- A parsed YouTube feed for witnesses. -/
def exYoutubeParsed : Youtube.Parsed :=
  { channel := { id := "UCabcdefghijklmnopqrstuv", name := "chan", handle := none,
                 url := "", avatar := none, subscribers := none, totalViews := none,
                 videoCount := none },
    videos := [] }

/-- A syntactically valid YouTube channel id (`UC` + 22 characters). -/
def exChannelId : String := "UCabcdefghijklmnopqrstuv"

/-! ## Helper lemmas -/

theorem dropWhile_length_le (p : Char → Bool) (l : List Char) :
    (l.dropWhile p).length ≤ l.length := by
  induction l with
  | nil => simp [List.dropWhile]
  | cons c t ih =>
    simp only [List.dropWhile]
    by_cases h : p c
    · simp only [h]
      exact Nat.le_trans ih (Nat.le_succ _)
    · simp [h]

theorem jsTrimList_length_le (l : List Char) : (jsTrimList l).length ≤ l.length := by
  have h1 := dropWhile_length_le isJsSpace l
  have h2 := dropWhile_length_le isJsSpace (l.dropWhile isJsSpace).reverse
  simp only [jsTrimList, List.length_reverse] at h2 ⊢
  omega

theorem jsTrim_length_le (s : String) : (jsTrim s).length ≤ s.length :=
  jsTrimList_length_le s.data

theorem jsTake_length_le (s : String) (n : Nat) : (jsTake s n).length ≤ n := by
  show (s.data.take n).length ≤ n
  simp [List.length_take]

theorem truncateText_length_le (text : String) (maxLength : Nat) :
    (Reddit.truncateText text maxLength).length ≤ maxLength + 3 := by
  unfold Reddit.truncateText
  by_cases h0 : text = ""
  · simp [h0]
  · simp only [h0, if_false]
    by_cases h : (jsTrim (Reddit.collapseNewlines text)).length ≤ maxLength
    · simp only [h, if_true]
      omega
    · simp only [h, if_false]
      rw [String.length_append]
      have h1 := jsTrim_length_le (jsTake (jsTrim (Reddit.collapseNewlines text)) maxLength)
      have h2 := jsTake_length_le (jsTrim (Reddit.collapseNewlines text)) maxLength
      have h3 : ("..." : String).length = 3 := rfl
      omega

theorem cacheFresh_cacheSet {α : Type} (cache : Cache α) (k : String) (d : α)
    (t t' ttl : Int) :
    cacheFresh (cacheSet cache k d t) k t' ttl =
      if t' - t < ttl then some d else none := by
  simp [cacheFresh, cacheGet, cacheSet, List.lookup]

theorem githubUser_roundTrip (u : String) (t t' : Int)
    (fu : String → Option GithubUser.GitHubUserRaw)
    (fe : String → List GithubUser.ProcessedEvent)
    (fc : String → GithubUser.Contributions)
    (cache : Cache GithubUser.Data)
    (hmiss : cacheFresh cache u t GithubUser.CACHE_TTL = none)
    (ht : t' - t < GithubUser.CACHE_TTL) :
    CachedRoundTrip (fun τ c => GithubUser.handler (some u) τ fu fe fc c) cache t t' := by
  unfold CachedRoundTrip
  simp only [GithubUser.handler, hmiss, cacheFresh_cacheSet, ht, if_true]
  exact ⟨_, trivial, rfl, trivial, rfl⟩

theorem githubOrg_roundTrip (org : String) (t t' : Int)
    (fo : String → Option GithubOrg.GitHubOrgRaw)
    (fe : String → List GithubOrg.ProcessedEvent)
    (fr : String → List GithubOrg.ProcessedRepo)
    (info : GithubOrg.GitHubOrgRaw)
    (cache : Cache GithubOrg.Data)
    (hinfo : fo org = some info)
    (hmiss : cacheFresh cache org t GithubOrg.CACHE_TTL = none)
    (ht : t' - t < GithubOrg.CACHE_TTL) :
    CachedRoundTrip (fun τ c => GithubOrg.handler (some org) τ fo fe fr c) cache t t' := by
  unfold CachedRoundTrip
  simp only [GithubOrg.handler, hinfo, hmiss, cacheFresh_cacheSet, ht, if_true]
  exact ⟨_, trivial, rfl, trivial, rfl⟩

theorem youtube_roundTrip (cid : String) (t t' : Int) (xml : String)
    (fr : String → Option String) (pr : String → Youtube.Parsed)
    (fcd : String → Option Youtube.ChannelDetails)
    (fvd : String → Option Youtube.VideoDetails)
    (cache : Cache Youtube.Data)
    (hv1 : jsStartsWith cid "UC" = true)
    (hv2 : cid.length = 24)
    (hrss : fr cid = some xml)
    (hmiss : cacheFresh cache cid t Youtube.CACHE_TTL = none)
    (ht : t' - t < Youtube.CACHE_TTL) :
    CachedRoundTrip (fun τ c => Youtube.handler (some cid) τ fr pr fcd fvd c) cache t t' := by
  unfold CachedRoundTrip
  simp only [Youtube.handler, hv1, hv2, hrss, hmiss, cacheFresh_cacheSet, ht,
    Bool.not_true, Bool.false_or, bne_self_eq_false, if_true, if_false,
    Bool.false_eq_true]
  exact ⟨_, trivial, rfl, trivial, rfl⟩

theorem substack_roundTrip (pub : String) (t t' : Int) (xml : String)
    (fr : String → Option String)
    (pr : String → String → Substack.Publication × List Substack.ProcessedPost)
    (ps : String → String → Option Substack.Stats)
    (cache : Cache Substack.Data)
    (hrss : fr (Substack.normalizePublication pub) = some xml)
    (hmiss : cacheFresh cache (Substack.normalizePublication pub) t Substack.CACHE_TTL = none)
    (ht : t' - t < Substack.CACHE_TTL) :
    CachedRoundTrip (fun τ c => Substack.handler (some pub) τ fr pr ps c) cache t t' := by
  unfold CachedRoundTrip
  simp only [Substack.handler, hrss, hmiss, cacheFresh_cacheSet, ht, if_true]
  exact ⟨_, trivial, rfl, trivial, rfl⟩

theorem reddit_roundTrip (u : String) (t t' : Int) (ru : Reddit.RedditUser)
    (fu : String → Option Reddit.RedditUser)
    (fa : String → List Reddit.RedditActivity)
    (cache : Cache Reddit.Data)
    (huser : fu (Reddit.normalizeUsername u) = some ru)
    (hmiss : cacheFresh cache (Reddit.normalizeUsername u) t Reddit.CACHE_TTL = none)
    (ht : t' - t < Reddit.CACHE_TTL) :
    CachedRoundTrip (fun τ c => Reddit.handler (some u) τ fu fa c) cache t t' := by
  unfold CachedRoundTrip
  simp only [Reddit.handler, huser, hmiss, cacheFresh_cacheSet, ht, if_true]
  exact ⟨_, trivial, rfl, trivial, rfl⟩

theorem tiktok_roundTrip (u : String) (vp : Option String) (t t' : Int)
    (sc : String → Option Tiktok.TikTokUser)
    (fe : String → Option Tiktok.Embed)
    (cache : Cache Tiktok.Data)
    (hmiss : cacheFresh cache (Tiktok.cacheKey u (Tiktok.splitVideoIds vp)) t
      Tiktok.CACHE_TTL = none)
    (ht : t' - t < Tiktok.CACHE_TTL) :
    CachedRoundTrip (fun τ c => Tiktok.handler (some u) vp τ sc fe c) cache t t' := by
  unfold CachedRoundTrip
  simp only [Tiktok.handler, hmiss, cacheFresh_cacheSet, ht, if_true]
  exact ⟨_, trivial, rfl, trivial, rfl⟩

theorem instagram_roundTrip (u : String) (pp : Option String) (t t' : Int)
    (sc : String → Option Instagram.InstagramUser)
    (fe : String → Option Instagram.InstagramPost)
    (cache : Cache Instagram.Data)
    (hmiss : cacheFresh cache (Instagram.cacheKey u (Instagram.splitPostIds pp)) t
      Instagram.CACHE_TTL = none)
    (ht : t' - t < Instagram.CACHE_TTL) :
    CachedRoundTrip (fun τ c => Instagram.handler (some u) pp τ sc fe c) cache t t' := by
  unfold CachedRoundTrip
  simp only [Instagram.handler, hmiss, cacheFresh_cacheSet, ht, if_true]
  exact ⟨_, trivial, rfl, trivial, rfl⟩

theorem discord_roundTrip (sid : String) (t t' : Int) (w : Discord.DiscordWidgetData)
    (wr : String → Discord.FetchOutcome Discord.DiscordWidgetData)
    (cache : Cache Discord.Data)
    (hw : wr sid = Discord.FetchOutcome.ok w)
    (hmiss : cacheFresh cache sid t Discord.CACHE_TTL = none)
    (ht : t' - t < Discord.CACHE_TTL) :
    CachedRoundTrip (fun τ c => Discord.handler (some sid) τ wr c) cache t t' := by
  unfold CachedRoundTrip
  simp only [Discord.handler, hw, hmiss, Discord.fetchDiscordWidget,
    cacheFresh_cacheSet, ht, if_true]
  exact ⟨_, trivial, rfl, trivial, rfl⟩

/-! ## Claim theorems -/

/-- C1: For every platform handler and every valid identifying parameter, if a
first call stores a cache entry at time `t` (i.e. it misses the cache and its
adapter conditions let it reach the store), then a second call with identical
parameters at `t'` with `t' - t` below the platform's TTL gets `cached:false`
then `cached:true`, with identical payloads apart from the cache flag. -/
theorem cached_roundtrip_all_platforms
    (t t' : Int)
    (gu : String) (gfu : String → Option GithubUser.GitHubUserRaw)
    (gfe : String → List GithubUser.ProcessedEvent)
    (gfc : String → GithubUser.Contributions) (gcache : Cache GithubUser.Data)
    (hgm : cacheFresh gcache gu t GithubUser.CACHE_TTL = none)
    (hgt : t' - t < GithubUser.CACHE_TTL)
    (go : String) (ofo : String → Option GithubOrg.GitHubOrgRaw)
    (ofe : String → List GithubOrg.ProcessedEvent)
    (ofr : String → List GithubOrg.ProcessedRepo)
    (oinfo : GithubOrg.GitHubOrgRaw) (ocache : Cache GithubOrg.Data)
    (hoi : ofo go = some oinfo)
    (hom : cacheFresh ocache go t GithubOrg.CACHE_TTL = none)
    (hot : t' - t < GithubOrg.CACHE_TTL)
    (yc : String) (yxml : String) (yfr : String → Option String)
    (ypr : String → Youtube.Parsed)
    (yfcd : String → Option Youtube.ChannelDetails)
    (yfvd : String → Option Youtube.VideoDetails) (ycache : Cache Youtube.Data)
    (hyv1 : jsStartsWith yc "UC" = true) (hyv2 : yc.length = 24)
    (hyr : yfr yc = some yxml)
    (hym : cacheFresh ycache yc t Youtube.CACHE_TTL = none)
    (hyt : t' - t < Youtube.CACHE_TTL)
    (sp : String) (sxml : String) (sfr : String → Option String)
    (spr : String → String → Substack.Publication × List Substack.ProcessedPost)
    (sps : String → String → Option Substack.Stats) (scache : Cache Substack.Data)
    (hsr : sfr (Substack.normalizePublication sp) = some sxml)
    (hsm : cacheFresh scache (Substack.normalizePublication sp) t Substack.CACHE_TTL = none)
    (hst : t' - t < Substack.CACHE_TTL)
    (ru : String) (rraw : Reddit.RedditUser)
    (rfu : String → Option Reddit.RedditUser)
    (rfa : String → List Reddit.RedditActivity) (rcache : Cache Reddit.Data)
    (hru : rfu (Reddit.normalizeUsername ru) = some rraw)
    (hrm : cacheFresh rcache (Reddit.normalizeUsername ru) t Reddit.CACHE_TTL = none)
    (hrt : t' - t < Reddit.CACHE_TTL)
    (tu : String) (tvp : Option String) (tsc : String → Option Tiktok.TikTokUser)
    (tfe : String → Option Tiktok.Embed) (tcache : Cache Tiktok.Data)
    (htm : cacheFresh tcache (Tiktok.cacheKey tu (Tiktok.splitVideoIds tvp)) t
      Tiktok.CACHE_TTL = none)
    (htt : t' - t < Tiktok.CACHE_TTL)
    (iu : String) (ipp : Option String)
    (isc : String → Option Instagram.InstagramUser)
    (ife : String → Option Instagram.InstagramPost) (icache : Cache Instagram.Data)
    (him : cacheFresh icache (Instagram.cacheKey iu (Instagram.splitPostIds ipp)) t
      Instagram.CACHE_TTL = none)
    (hit : t' - t < Instagram.CACHE_TTL)
    (ds : String) (dw : Discord.DiscordWidgetData)
    (dwr : String → Discord.FetchOutcome Discord.DiscordWidgetData)
    (dcache : Cache Discord.Data)
    (hdw : dwr ds = Discord.FetchOutcome.ok dw)
    (hdm : cacheFresh dcache ds t Discord.CACHE_TTL = none)
    (hdt : t' - t < Discord.CACHE_TTL) :
    CachedRoundTrip (fun τ c => GithubUser.handler (some gu) τ gfu gfe gfc c) gcache t t' ∧
    CachedRoundTrip (fun τ c => GithubOrg.handler (some go) τ ofo ofe ofr c) ocache t t' ∧
    CachedRoundTrip (fun τ c => Youtube.handler (some yc) τ yfr ypr yfcd yfvd c) ycache t t' ∧
    CachedRoundTrip (fun τ c => Substack.handler (some sp) τ sfr spr sps c) scache t t' ∧
    CachedRoundTrip (fun τ c => Reddit.handler (some ru) τ rfu rfa c) rcache t t' ∧
    CachedRoundTrip (fun τ c => Tiktok.handler (some tu) tvp τ tsc tfe c) tcache t t' ∧
    CachedRoundTrip (fun τ c => Instagram.handler (some iu) ipp τ isc ife c) icache t t' ∧
    CachedRoundTrip (fun τ c => Discord.handler (some ds) τ dwr c) dcache t t' :=
  ⟨githubUser_roundTrip gu t t' gfu gfe gfc gcache hgm hgt,
   githubOrg_roundTrip go t t' ofo ofe ofr oinfo ocache hoi hom hot,
   youtube_roundTrip yc t t' yxml yfr ypr yfcd yfvd ycache hyv1 hyv2 hyr hym hyt,
   substack_roundTrip sp t t' sxml sfr spr sps scache hsr hsm hst,
   reddit_roundTrip ru t t' rraw rfu rfa rcache hru hrm hrt,
   tiktok_roundTrip tu tvp t t' tsc tfe tcache htm htt,
   instagram_roundTrip iu ipp t t' isc ife icache him hit,
   discord_roundTrip ds t t' dw dwr dcache hdw hdm hdt⟩

/-- Witness for C1 at concrete inputs: times 0 and 1 ms, empty caches,
successful trivial upstream oracles. -/
theorem cached_roundtrip_all_platforms_witness :
    CachedRoundTrip (fun τ c => GithubUser.handler (some "alice") τ
      (fun _ => some exGithubUser) (fun _ => []) (fun _ => ⟨[], 0⟩) c) [] 0 1 ∧
    CachedRoundTrip (fun τ c => GithubOrg.handler (some "acme") τ
      (fun _ => some exGithubOrg) (fun _ => []) (fun _ => []) c) [] 0 1 ∧
    CachedRoundTrip (fun τ c => Youtube.handler (some exChannelId) τ
      (fun _ => some "xml") (fun _ => exYoutubeParsed) (fun _ => none)
      (fun _ => none) c) [] 0 1 ∧
    CachedRoundTrip (fun τ c => Substack.handler (some "pub") τ
      exSubstackFetch exSubstackParse exSubstackStats c) [] 0 1 ∧
    CachedRoundTrip (fun τ c => Reddit.handler (some "alice") τ
      (fun _ => some exRedditUser) (fun _ => []) c) [] 0 1 ∧
    CachedRoundTrip (fun τ c => Tiktok.handler (some "tk") none τ
      (fun _ => none) (fun _ => none) c) [] 0 1 ∧
    CachedRoundTrip (fun τ c => Instagram.handler (some "ig") none τ
      (fun _ => none) (fun _ => none) c) [] 0 1 ∧
    CachedRoundTrip (fun τ c => Discord.handler (some "123") τ
      (fun _ => Discord.FetchOutcome.ok exWidgetData) c) [] 0 1 :=
  cached_roundtrip_all_platforms 0 1
    "alice" (fun _ => some exGithubUser) (fun _ => []) (fun _ => ⟨[], 0⟩) []
    rfl (by decide)
    "acme" (fun _ => some exGithubOrg) (fun _ => []) (fun _ => []) exGithubOrg []
    rfl rfl (by decide)
    exChannelId "xml" (fun _ => some "xml") (fun _ => exYoutubeParsed)
    (fun _ => none) (fun _ => none) []
    (by decide) (by decide) rfl rfl (by decide)
    "pub" "xml" exSubstackFetch exSubstackParse exSubstackStats []
    rfl rfl (by decide)
    "alice" exRedditUser (fun _ => some exRedditUser) (fun _ => []) []
    rfl rfl (by decide)
    "tk" none (fun _ => none) (fun _ => none) []
    rfl (by decide)
    "ig" none (fun _ => none) (fun _ => none) []
    rfl (by decide)
    "123" exWidgetData (fun _ => Discord.FetchOutcome.ok exWidgetData) []
    rfl rfl (by decide)

/-- Counterexample to C2 as stated: with the widget endpoint answering 403,
the first call does yield 503 with `widgetDisabled:true`, but the failure is
never written to the in-memory cache, so a second call 1 second later (well
inside the claimed short TTL) contacts the widget endpoint again. -/
theorem discord_widget_disabled_reprobe_counterexample :
    (Discord.handler (some "123") 0 exWidget403 []).status = 503 ∧
    (Discord.handler (some "123") 0 exWidget403 []).body =
      RespBody.err
        "Could not fetch Discord widget. Make sure the widget is enabled in server settings."
        true ∧
    (Discord.handler (some "123") 0 exWidget403 []).cacheAfter = [] ∧
    (Discord.handler (some "123") 1000 exWidget403
      (Discord.handler (some "123") 0 exWidget403 []).cacheAfter).calls =
      [Discord.widgetUrl "123"] := by
  refine ⟨rfl, rfl, rfl, rfl⟩

/-- C2 (amended): a 403 from the widget endpoint yields HTTP 503 with
`widgetDisabled:true` and a `Cache-Control: public, max-age=60` header (the
only "caching" of the condition); the in-memory cache is unchanged, so a
repeated direct invocation within that window probes the widget endpoint
again. -/
theorem discord_widget_disabled_503_cached_header (sid : String) (t t' : Int)
    (wr : String → Discord.FetchOutcome Discord.DiscordWidgetData)
    (cache : Cache Discord.Data)
    (h403 : wr sid = Discord.FetchOutcome.httpError 403)
    (hm : cacheFresh cache sid t Discord.CACHE_TTL = none)
    (hm' : cacheFresh cache sid t' Discord.CACHE_TTL = none) :
    (Discord.handler (some sid) t wr cache).status = 503 ∧
    (Discord.handler (some sid) t wr cache).body =
      RespBody.err
        "Could not fetch Discord widget. Make sure the widget is enabled in server settings."
        true ∧
    (Discord.handler (some sid) t wr cache).cacheControl = some "public, max-age=60" ∧
    (Discord.handler (some sid) t wr cache).cacheAfter = cache ∧
    (Discord.handler (some sid) t wr cache).calls = [Discord.widgetUrl sid] ∧
    (Discord.handler (some sid) t' wr
      (Discord.handler (some sid) t wr cache).cacheAfter).calls =
      [Discord.widgetUrl sid] := by
  refine ⟨?_, ?_, ?_, ?_, ?_, ?_⟩ <;>
    simp [Discord.handler, Discord.fetchDiscordWidget, h403, hm, hm']

/-- Witness for C2's amended theorem at concrete inputs. -/
theorem discord_widget_disabled_503_cached_header_witness :
    (Discord.handler (some "123") 0 exWidget403 []).status = 503 ∧
    (Discord.handler (some "123") 0 exWidget403 []).body =
      RespBody.err
        "Could not fetch Discord widget. Make sure the widget is enabled in server settings."
        true ∧
    (Discord.handler (some "123") 0 exWidget403 []).cacheControl =
      some "public, max-age=60" ∧
    (Discord.handler (some "123") 0 exWidget403 []).cacheAfter = [] ∧
    (Discord.handler (some "123") 0 exWidget403 []).calls = [Discord.widgetUrl "123"] ∧
    (Discord.handler (some "123") 1000 exWidget403
      (Discord.handler (some "123") 0 exWidget403 []).cacheAfter).calls =
      [Discord.widgetUrl "123"] :=
  discord_widget_disabled_503_cached_header "123" 0 1000 exWidget403 [] rfl rfl rfl

/-- Counterexample to C3 as stated: 30 hours in the past, the Substack and
YouTube `formatRelativeTime` both return the day-suffixed `"1d"` — not an
hour-suffixed string, because no 48-hour or 7-day boundary exists in the
code. -/
theorem relative_time_boundary_counterexample :
    Substack.formatRelativeTime 108000000 0 = "1d" ∧
    Youtube.formatRelativeTime 108000000 0 = "1d" ∧
    jsEndsWith "1d" "h" = false ∧
    jsEndsWith "1d" "d" = true := by
  refine ⟨by decide, by decide, by decide, by decide⟩

/-- C3 (amended): all four platform copies of `formatRelativeTime` use the
same boundaries (60 minutes, 24 hours, 30 days): 45 minutes in the past every
platform returns `"45m"` (ending in `m`), and 30 hours in the past every
platform — GitHub, Reddit, Substack and YouTube alike — returns `"1d"`
(ending in `d`, not `h`). -/
theorem relative_time_uniform_boundaries
    (n45 d45 n30 d30 ns45 ss45 ns30 ss30 : Int)
    (h45 : n45 - d45 = 2700000) (h30 : n30 - d30 = 108000000)
    (hr45 : ns45 - ss45 * 1000 = 2700000) (hr30 : ns30 - ss30 * 1000 = 108000000) :
    GithubUser.formatRelativeTime n45 d45 = "45m" ∧
    Youtube.formatRelativeTime n45 d45 = "45m" ∧
    Substack.formatRelativeTime n45 d45 = "45m" ∧
    Reddit.formatRelativeTime ns45 ss45 = "45m" ∧
    GithubUser.formatRelativeTime n30 d30 = "1d" ∧
    Youtube.formatRelativeTime n30 d30 = "1d" ∧
    Substack.formatRelativeTime n30 d30 = "1d" ∧
    Reddit.formatRelativeTime ns30 ss30 = "1d" ∧
    jsEndsWith "45m" "m" = true ∧ jsEndsWith "1d" "d" = true := by
  refine ⟨?_, ?_, ?_, ?_, ?_, ?_, ?_, ?_, by decide, by decide⟩
  · simp only [GithubUser.formatRelativeTime]; rw [h45]; decide
  · simp only [Youtube.formatRelativeTime]; rw [h45]; decide
  · simp only [Substack.formatRelativeTime]; rw [h45]; decide
  · simp only [Reddit.formatRelativeTime]; rw [hr45]; decide
  · simp only [GithubUser.formatRelativeTime]; rw [h30]; decide
  · simp only [Youtube.formatRelativeTime]; rw [h30]; decide
  · simp only [Substack.formatRelativeTime]; rw [h30]; decide
  · simp only [Reddit.formatRelativeTime]; rw [hr30]; decide

/-- Witness for C3's amended theorem at concrete times. -/
theorem relative_time_uniform_boundaries_witness :
    GithubUser.formatRelativeTime 2700000 0 = "45m" ∧
    Youtube.formatRelativeTime 2700000 0 = "45m" ∧
    Substack.formatRelativeTime 2700000 0 = "45m" ∧
    Reddit.formatRelativeTime 2700000 0 = "45m" ∧
    GithubUser.formatRelativeTime 108000000 0 = "1d" ∧
    Youtube.formatRelativeTime 108000000 0 = "1d" ∧
    Substack.formatRelativeTime 108000000 0 = "1d" ∧
    Reddit.formatRelativeTime 108000000 0 = "1d" ∧
    jsEndsWith "45m" "m" = true ∧ jsEndsWith "1d" "d" = true :=
  relative_time_uniform_boundaries 2700000 0 108000000 0 2700000 0 108000000 0
    (by decide) (by decide) (by decide) (by decide)

/-- Counterexample to C4 as stated: a failed upstream RSS fetch is surfaced
with HTTP 500 — not 503 — by both the YouTube and the Substack handler. -/
theorem rss_failure_status_counterexample :
    (Youtube.handler (some exChannelId) 0 (fun _ => none) (fun _ => exYoutubeParsed)
      (fun _ => none) (fun _ => none) []).status = 500 ∧
    (Substack.handler (some "pub") 0 (fun _ => none) exSubstackParse
      exSubstackStats []).status = 500 ∧
    (500 : Nat) ≠ 503 := by
  refine ⟨rfl, rfl, by decide⟩

/-- C4 (amended): every response of every platform handler is either a 200
payload or a JSON error object with a non-empty `error` string and status
400, 404, 500 or 503; in particular a failed upstream RSS fetch in the
YouTube or Substack handler is surfaced with status 500 (not 503). -/
theorem error_status_taxonomy :
    (∀ (p : Option String) (now : Int) (fu : String → Option GithubUser.GitHubUserRaw)
       (fe : String → List GithubUser.ProcessedEvent)
       (fc : String → GithubUser.Contributions) (cache : Cache GithubUser.Data),
       OkOrError (GithubUser.handler p now fu fe fc cache) [400, 404, 500, 503]) ∧
    (∀ (p : Option String) (now : Int) (fo : String → Option GithubOrg.GitHubOrgRaw)
       (fe : String → List GithubOrg.ProcessedEvent)
       (fr : String → List GithubOrg.ProcessedRepo) (cache : Cache GithubOrg.Data),
       OkOrError (GithubOrg.handler p now fo fe fr cache) [400, 404, 500, 503]) ∧
    (∀ (p : Option String) (now : Int) (fr : String → Option String)
       (pr : String → Youtube.Parsed) (fcd : String → Option Youtube.ChannelDetails)
       (fvd : String → Option Youtube.VideoDetails) (cache : Cache Youtube.Data),
       OkOrError (Youtube.handler p now fr pr fcd fvd cache) [400, 404, 500, 503]) ∧
    (∀ (p : Option String) (now : Int) (fr : String → Option String)
       (pr : String → String → Substack.Publication × List Substack.ProcessedPost)
       (ps : String → String → Option Substack.Stats) (cache : Cache Substack.Data),
       OkOrError (Substack.handler p now fr pr ps cache) [400, 404, 500, 503]) ∧
    (∀ (p : Option String) (now : Int) (fu : String → Option Reddit.RedditUser)
       (fa : String → List Reddit.RedditActivity) (cache : Cache Reddit.Data),
       OkOrError (Reddit.handler p now fu fa cache) [400, 404, 500, 503]) ∧
    (∀ (p vp : Option String) (now : Int) (sc : String → Option Tiktok.TikTokUser)
       (fe : String → Option Tiktok.Embed) (cache : Cache Tiktok.Data),
       OkOrError (Tiktok.handler p vp now sc fe cache) [400, 404, 500, 503]) ∧
    (∀ (p pp : Option String) (now : Int) (sc : String → Option Instagram.InstagramUser)
       (fe : String → Option Instagram.InstagramPost) (cache : Cache Instagram.Data),
       OkOrError (Instagram.handler p pp now sc fe cache) [400, 404, 500, 503]) ∧
    (∀ (p : Option String) (now : Int)
       (wr : String → Discord.FetchOutcome Discord.DiscordWidgetData)
       (cache : Cache Discord.Data),
       OkOrError (Discord.handler p now wr cache) [400, 404, 500, 503]) ∧
    (∀ (cid : String) (now : Int) (fr : String → Option String)
       (pr : String → Youtube.Parsed) (fcd : String → Option Youtube.ChannelDetails)
       (fvd : String → Option Youtube.VideoDetails) (cache : Cache Youtube.Data),
       jsStartsWith cid "UC" = true → cid.length = 24 → fr cid = none →
       cacheFresh cache cid now Youtube.CACHE_TTL = none →
       (Youtube.handler (some cid) now fr pr fcd fvd cache).status = 500 ∧
       (Youtube.handler (some cid) now fr pr fcd fvd cache).body =
         RespBody.err "Failed to fetch YouTube feed" false) ∧
    (∀ (pub : String) (now : Int) (fr : String → Option String)
       (pr : String → String → Substack.Publication × List Substack.ProcessedPost)
       (ps : String → String → Option Substack.Stats) (cache : Cache Substack.Data),
       fr (Substack.normalizePublication pub) = none →
       cacheFresh cache (Substack.normalizePublication pub) now Substack.CACHE_TTL = none →
       (Substack.handler (some pub) now fr pr ps cache).status = 500 ∧
       (Substack.handler (some pub) now fr pr ps cache).body =
         RespBody.err "Failed to fetch Substack feed" false) := by
  refine ⟨?_, ?_, ?_, ?_, ?_, ?_, ?_, ?_, ?_, ?_⟩
  · intro p now fu fe fc cache
    cases p with
    | none => right; simp [GithubUser.handler]
    | some u =>
      cases hc : cacheFresh cache u now GithubUser.CACHE_TTL with
      | some d => left; simp [GithubUser.handler, hc]
      | none => left; simp [GithubUser.handler, hc]
  · intro p now fo fe fr cache
    cases p with
    | none => right; simp [GithubOrg.handler]
    | some org =>
      cases hc : cacheFresh cache org now GithubOrg.CACHE_TTL with
      | some d => left; simp [GithubOrg.handler, hc]
      | none =>
        cases ho : fo org with
        | none => right; simp [GithubOrg.handler, hc, ho]
        | some info => left; simp [GithubOrg.handler, hc, ho]
  · intro p now fr pr fcd fvd cache
    cases p with
    | none => right; simp [Youtube.handler]
    | some cid =>
      cases hv : (!jsStartsWith cid "UC" || cid.length != 24) with
      | true => right; simp [Youtube.handler, hv]
      | false =>
        cases hc : cacheFresh cache cid now Youtube.CACHE_TTL with
        | some d => left; simp [Youtube.handler, hv, hc]
        | none =>
          cases hr : fr cid with
          | none => right; simp [Youtube.handler, hv, hc, hr]
          | some xml => left; simp [Youtube.handler, hv, hc, hr]
  · intro p now fr pr ps cache
    cases p with
    | none => right; simp [Substack.handler]
    | some pub =>
      cases hc : cacheFresh cache (Substack.normalizePublication pub) now
        Substack.CACHE_TTL with
      | some d => left; simp [Substack.handler, hc]
      | none =>
        cases hr : fr (Substack.normalizePublication pub) with
        | none => right; simp [Substack.handler, hc, hr]
        | some xml => left; simp [Substack.handler, hc, hr]
  · intro p now fu fa cache
    cases p with
    | none => right; simp [Reddit.handler]
    | some u =>
      cases hc : cacheFresh cache (Reddit.normalizeUsername u) now Reddit.CACHE_TTL with
      | some d => left; simp [Reddit.handler, hc]
      | none =>
        cases hu : fu (Reddit.normalizeUsername u) with
        | none => right; simp [Reddit.handler, hc, hu]
        | some ru => left; simp [Reddit.handler, hc, hu]
  · intro p vp now sc fe cache
    cases p with
    | none => right; simp [Tiktok.handler]
    | some u =>
      cases hc : cacheFresh cache (Tiktok.cacheKey u (Tiktok.splitVideoIds vp)) now
        Tiktok.CACHE_TTL with
      | some d => left; simp [Tiktok.handler, hc]
      | none => left; simp [Tiktok.handler, hc]
  · intro p pp now sc fe cache
    cases p with
    | none => right; simp [Instagram.handler]
    | some u =>
      cases hc : cacheFresh cache (Instagram.cacheKey u (Instagram.splitPostIds pp)) now
        Instagram.CACHE_TTL with
      | some d => left; simp [Instagram.handler, hc]
      | none => left; simp [Instagram.handler, hc]
  · intro p now wr cache
    cases p with
    | none => right; simp [Discord.handler]
    | some sid =>
      cases hc : cacheFresh cache sid now Discord.CACHE_TTL with
      | some d => left; simp [Discord.handler, hc]
      | none =>
        cases hw : Discord.fetchDiscordWidget (wr sid) with
        | none => right; simp [Discord.handler, hc, hw]
        | some w => left; simp [Discord.handler, hc, hw]
  · intro cid now fr pr fcd fvd cache hv1 hv2 hr hc
    constructor <;> simp [Youtube.handler, hv1, hv2, hr, hc]
  · intro pub now fr pr ps cache hr hc
    constructor <;> simp [Substack.handler, hr, hc]

/-- Witness for C4's amended theorem: a 400 response, and the two RSS-failure
branches evaluated at concrete inputs. -/
theorem error_status_taxonomy_witness :
    OkOrError (GithubUser.handler none 0 (fun _ => none) (fun _ => [])
      (fun _ => ⟨[], 0⟩) []) [400, 404, 500, 503] ∧
    (Youtube.handler (some exChannelId) 0 (fun _ => none) (fun _ => exYoutubeParsed)
      (fun _ => none) (fun _ => none) []).status = 500 ∧
    (Substack.handler (some "pub") 0 (fun _ => none) exSubstackParse
      exSubstackStats []).status = 500 :=
  ⟨error_status_taxonomy.1 none 0 (fun _ => none) (fun _ => [])
      (fun _ => ⟨[], 0⟩) [],
   (error_status_taxonomy.2.2.2.2.2.2.2.2.1 exChannelId 0 (fun _ => none)
      (fun _ => exYoutubeParsed) (fun _ => none) (fun _ => none) []
      (by decide) (by decide) rfl rfl).1,
   (error_status_taxonomy.2.2.2.2.2.2.2.2.2 "pub" 0 (fun _ => none)
      exSubstackParse exSubstackStats [] rfl rfl).1⟩

/-- Counterexample to C5 as stated: when the upstream user lookup finds no
GitHub user (the `fetchUserInfo` oracle yields `null`), the GitHub *user*
handler does not answer 404 — it answers 200 with `user:null`. -/
theorem github_user_notfound_counterexample :
    (GithubUser.handler (some "ghost") 0 (fun _ => none) (fun _ => [])
      (fun _ => ⟨[], 0⟩) []).status = 200 ∧
    (200 : Nat) ≠ 404 ∧
    (GithubUser.handler (some "ghost") 0 (fun _ => none) (fun _ => [])
      (fun _ => ⟨[], 0⟩) []).body =
      RespBody.payload { user := none, events := [], contributions := ⟨[], 0⟩ } false := by
  refine ⟨rfl, by decide, rfl⟩

/-- C5 (amended): upstream-confirmed absence yields a hard 404 for the GitHub
*org* and Reddit handlers, while the GitHub *user* handler soft-fails with
200 and `user:null`; for all three, the only non-200 statuses are 400
(InvalidInput) and 404 (NotFound). -/
theorem notfound_404_org_reddit_soft_github_user :
    (∀ (org : String) (now : Int) (fo : String → Option GithubOrg.GitHubOrgRaw)
       (fe : String → List GithubOrg.ProcessedEvent)
       (fr : String → List GithubOrg.ProcessedRepo) (cache : Cache GithubOrg.Data),
       fo org = none → cacheFresh cache org now GithubOrg.CACHE_TTL = none →
       (GithubOrg.handler (some org) now fo fe fr cache).status = 404 ∧
       (GithubOrg.handler (some org) now fo fe fr cache).body =
         RespBody.err "Organization not found" false) ∧
    (∀ (u : String) (now : Int) (fu : String → Option Reddit.RedditUser)
       (fa : String → List Reddit.RedditActivity) (cache : Cache Reddit.Data),
       fu (Reddit.normalizeUsername u) = none →
       cacheFresh cache (Reddit.normalizeUsername u) now Reddit.CACHE_TTL = none →
       (Reddit.handler (some u) now fu fa cache).status = 404 ∧
       (Reddit.handler (some u) now fu fa cache).body =
         RespBody.err "User not found or private" false) ∧
    (∀ (u : String) (now : Int) (fu : String → Option GithubUser.GitHubUserRaw)
       (fe : String → List GithubUser.ProcessedEvent)
       (fc : String → GithubUser.Contributions) (cache : Cache GithubUser.Data),
       fu u = none → cacheFresh cache u now GithubUser.CACHE_TTL = none →
       (GithubUser.handler (some u) now fu fe fc cache).status = 200 ∧
       (GithubUser.handler (some u) now fu fe fc cache).body =
         RespBody.payload { user := none, events := fe u, contributions := fc u } false) ∧
    (∀ (p : Option String) (now : Int) (fo : String → Option GithubOrg.GitHubOrgRaw)
       (fe : String → List GithubOrg.ProcessedEvent)
       (fr : String → List GithubOrg.ProcessedRepo) (cache : Cache GithubOrg.Data),
       (GithubOrg.handler p now fo fe fr cache).status = 200 ∨
       (GithubOrg.handler p now fo fe fr cache).status = 400 ∨
       (GithubOrg.handler p now fo fe fr cache).status = 404) ∧
    (∀ (p : Option String) (now : Int) (fu : String → Option Reddit.RedditUser)
       (fa : String → List Reddit.RedditActivity) (cache : Cache Reddit.Data),
       (Reddit.handler p now fu fa cache).status = 200 ∨
       (Reddit.handler p now fu fa cache).status = 400 ∨
       (Reddit.handler p now fu fa cache).status = 404) ∧
    (∀ (p : Option String) (now : Int) (fu : String → Option GithubUser.GitHubUserRaw)
       (fe : String → List GithubUser.ProcessedEvent)
       (fc : String → GithubUser.Contributions) (cache : Cache GithubUser.Data),
       (GithubUser.handler p now fu fe fc cache).status = 200 ∨
       (GithubUser.handler p now fu fe fc cache).status = 400) := by
  refine ⟨?_, ?_, ?_, ?_, ?_, ?_⟩
  · intro org now fo fe fr cache ho hc
    constructor <;> simp [GithubOrg.handler, ho, hc]
  · intro u now fu fa cache hu hc
    constructor <;> simp [Reddit.handler, hu, hc]
  · intro u now fu fe fc cache hu hc
    constructor <;> simp [GithubUser.handler, hu, hc]
  · intro p now fo fe fr cache
    cases p with
    | none => right; left; simp [GithubOrg.handler]
    | some org =>
      cases hc : cacheFresh cache org now GithubOrg.CACHE_TTL with
      | some d => left; simp [GithubOrg.handler, hc]
      | none =>
        cases ho : fo org with
        | none => right; right; simp [GithubOrg.handler, hc, ho]
        | some info => left; simp [GithubOrg.handler, hc, ho]
  · intro p now fu fa cache
    cases p with
    | none => right; left; simp [Reddit.handler]
    | some u =>
      cases hc : cacheFresh cache (Reddit.normalizeUsername u) now Reddit.CACHE_TTL with
      | some d => left; simp [Reddit.handler, hc]
      | none =>
        cases hu : fu (Reddit.normalizeUsername u) with
        | none => right; right; simp [Reddit.handler, hc, hu]
        | some ru => left; simp [Reddit.handler, hc, hu]
  · intro p now fu fe fc cache
    cases p with
    | none => right; simp [GithubUser.handler]
    | some u =>
      cases hc : cacheFresh cache u now GithubUser.CACHE_TTL with
      | some d => left; simp [GithubUser.handler, hc]
      | none => left; simp [GithubUser.handler, hc]

/-- Witness for C5's amended theorem at concrete inputs. -/
theorem notfound_404_org_reddit_soft_github_user_witness :
    ((GithubOrg.handler (some "ghost") 0 (fun _ => none) (fun _ => [])
      (fun _ => []) []).status = 404 ∧
     (GithubOrg.handler (some "ghost") 0 (fun _ => none) (fun _ => [])
      (fun _ => []) []).body = RespBody.err "Organization not found" false) ∧
    ((Reddit.handler (some "ghost") 0 (fun _ => none) (fun _ => []) []).status = 404 ∧
     (Reddit.handler (some "ghost") 0 (fun _ => none) (fun _ => []) []).body =
       RespBody.err "User not found or private" false) ∧
    ((GithubUser.handler (some "ghost") 0 (fun _ => none) (fun _ => [])
      (fun _ => ⟨[], 0⟩) []).status = 200 ∧
     (GithubUser.handler (some "ghost") 0 (fun _ => none) (fun _ => [])
      (fun _ => ⟨[], 0⟩) []).body =
       RespBody.payload { user := none, events := [], contributions := ⟨[], 0⟩ } false) :=
  ⟨notfound_404_org_reddit_soft_github_user.1 "ghost" 0 (fun _ => none)
      (fun _ => []) (fun _ => []) [] rfl rfl,
   notfound_404_org_reddit_soft_github_user.2.1 "ghost" 0 (fun _ => none)
      (fun _ => []) [] rfl rfl,
   notfound_404_org_reddit_soft_github_user.2.2.1 "ghost" 0 (fun _ => none)
      (fun _ => []) (fun _ => ⟨[], 0⟩) [] rfl rfl⟩

/-- C6: In the GitHub user adapter's `processEvent`, `WatchEvent`/`ForkEvent`
produce a repo field and message carrying the full `owner/repo` path from
`event.repo.name`, while push/PR/issue/create events use only the short
repository name. -/
theorem watch_fork_full_repo_path (nowMs : Int) (e : GithubUser.GitHubEvent) :
    (e.type = "WatchEvent" →
      GithubUser.processEvent nowMs e = some
        { type := "star", repo := e.repo.name,
          time := GithubUser.formatRelativeTime nowMs e.created_at,
          message := "Starred " ++ e.repo.name }) ∧
    (e.type = "ForkEvent" →
      GithubUser.processEvent nowMs e = some
        { type := "fork", repo := e.repo.name,
          time := GithubUser.formatRelativeTime nowMs e.created_at,
          message := "Forked " ++ e.repo.name }) ∧
    (e.type = "PushEvent" →
      GithubUser.processEvent nowMs e = some
        { type := "push", repo := GithubUser.shortRepoName e.repo.name,
          time := GithubUser.formatRelativeTime nowMs e.created_at,
          message := "Pushed to " ++ GithubUser.shortRepoName e.repo.name ++ ": " ++
            jsTake (jsOrOpt (GithubUser.firstCommitLine e.payload.commits) "Pushed code") 50 }) ∧
    (e.type = "PullRequestEvent" →
      GithubUser.processEvent nowMs e = some
        { type := "pr", repo := GithubUser.shortRepoName e.repo.name,
          time := GithubUser.formatRelativeTime nowMs e.created_at,
          message := jsTemplate e.payload.action ++ " PR on " ++
            GithubUser.shortRepoName e.repo.name }) ∧
    (e.type = "IssuesEvent" →
      GithubUser.processEvent nowMs e = some
        { type := "issue", repo := GithubUser.shortRepoName e.repo.name,
          time := GithubUser.formatRelativeTime nowMs e.created_at,
          message := jsTemplate e.payload.action ++ " issue on " ++
            GithubUser.shortRepoName e.repo.name }) ∧
    (e.type = "CreateEvent" →
      GithubUser.processEvent nowMs e = some
        { type := "create", repo := GithubUser.shortRepoName e.repo.name,
          time := GithubUser.formatRelativeTime nowMs e.created_at,
          message :=
            if e.payload.ref_type = some "repository" then
              "Created repository " ++ GithubUser.shortRepoName e.repo.name
            else
              "Created " ++ jsTemplate e.payload.ref_type ++ " " ++
                jsTemplate e.payload.ref ++ " on " ++ GithubUser.shortRepoName e.repo.name }) := by
  refine ⟨?_, ?_, ?_, ?_, ?_, ?_⟩
  all_goals intro h
  all_goals simp only [GithubUser.processEvent, h]
  all_goals split <;> rfl

/-- Witness for C6 at the spec's own example: a `WatchEvent` and a
`ForkEvent` on `octocat/Hello-World`. -/
theorem watch_fork_full_repo_path_witness :
    GithubUser.processEvent 0 exWatchEvent = some
      { type := "star", repo := "octocat/Hello-World",
        time := GithubUser.formatRelativeTime 0 0,
        message := "Starred octocat/Hello-World" } ∧
    GithubUser.processEvent 0 exForkEvent = some
      { type := "fork", repo := "octocat/Hello-World",
        time := GithubUser.formatRelativeTime 0 0,
        message := "Forked octocat/Hello-World" } :=
  ⟨(watch_fork_full_repo_path 0 exWatchEvent).1 rfl,
   (watch_fork_full_repo_path 0 exForkEvent).2.1 rfl⟩

set_option maxRecDepth 8000 in
/-- Counterexample to C7 as stated: the source trims the sliced prefix
*again* before appending the ellipsis, so for a 300-character body whose
120-character cut ends on a space the result is not "the first 120 characters
plus an ellipsis" (123 characters) but 122 characters. -/
theorem truncate_ellipsis_counterexample :
    exCommentBody.length = 300 ∧
    (Reddit.processActivity 0 exCommentItem).body =
      some (Reddit.truncateText exCommentBody 120) ∧
    Reddit.truncateText exCommentBody 120 ≠
      Reddit.truncateTextClaimed exCommentBody 120 ∧
    (Reddit.truncateText exCommentBody 120).length = 122 ∧
    (Reddit.truncateTextClaimed exCommentBody 120).length = 123 := by
  refine ⟨by decide, by decide, by decide, by decide, by decide⟩

/-- C7 (amended): every Reddit activity of kind `t1` is typed `comment`, its
body is the comment body with newline runs collapsed to single spaces,
trimmed, and — when longer than 120 characters — cut to 120 characters,
trimmed of trailing whitespace, plus an ellipsis; the result never exceeds
123 characters. -/
theorem reddit_comment_truncation (nowMs : Int) (item : Reddit.RedditActivity)
    (h : item.kind = "t1") :
    (Reddit.processActivity nowMs item).type = "comment" ∧
    (Reddit.processActivity nowMs item).body =
      some (Reddit.truncateText (jsOrOpt item.data.body "") 120) ∧
    (∀ s : String, (Reddit.truncateText s 120).length ≤ 123) := by
  refine ⟨?_, ?_, fun s => by have := truncateText_length_le s 120; omega⟩ <;>
    simp [Reddit.processActivity, h]

/-- Witness for C7's amended theorem at the 300-character example comment. -/
theorem reddit_comment_truncation_witness :
    (Reddit.processActivity 0 exCommentItem).type = "comment" ∧
    (Reddit.processActivity 0 exCommentItem).body =
      some (Reddit.truncateText (jsOrOpt exCommentItem.data.body "") 120) ∧
    (Reddit.truncateText exCommentBody 120).length ≤ 123 :=
  ⟨(reddit_comment_truncation 0 exCommentItem rfl).1,
   (reddit_comment_truncation 0 exCommentItem rfl).2.1,
   (reddit_comment_truncation 0 exCommentItem rfl).2.2 exCommentBody⟩

/-- C8: a `channelId` that does not start with `UC` or is not exactly 24
characters long is rejected with 400 and a JSON error body, with the cache
untouched and no upstream call made. -/
theorem youtube_invalid_channel_rejected (cid : String)
    (h : jsStartsWith cid "UC" = false ∨ cid.length ≠ 24)
    (now : Int) (fr : String → Option String) (pr : String → Youtube.Parsed)
    (fcd : String → Option Youtube.ChannelDetails)
    (fvd : String → Option Youtube.VideoDetails) (cache : Cache Youtube.Data) :
    (Youtube.handler (some cid) now fr pr fcd fvd cache).status = 400 ∧
    (Youtube.handler (some cid) now fr pr fcd fvd cache).body =
      RespBody.err "Invalid channel ID format. Should start with UC and be 24 characters."
        false ∧
    (Youtube.handler (some cid) now fr pr fcd fvd cache).cacheAfter = cache ∧
    (Youtube.handler (some cid) now fr pr fcd fvd cache).calls = [] := by
  have hb : (!jsStartsWith cid "UC" || cid.length != 24) = true := by
    rcases h with h | h
    · simp [h]
    · simp [h]
  refine ⟨?_, ?_, ?_, ?_⟩ <;> simp [Youtube.handler, hb]

/-- Witness for C8 at a concrete malformed channel id. -/
theorem youtube_invalid_channel_rejected_witness :
    (Youtube.handler (some "bad") 0 (fun _ => none) (fun _ => exYoutubeParsed)
      (fun _ => none) (fun _ => none) []).status = 400 ∧
    (Youtube.handler (some "bad") 0 (fun _ => none) (fun _ => exYoutubeParsed)
      (fun _ => none) (fun _ => none) []).body =
      RespBody.err "Invalid channel ID format. Should start with UC and be 24 characters."
        false ∧
    (Youtube.handler (some "bad") 0 (fun _ => none) (fun _ => exYoutubeParsed)
      (fun _ => none) (fun _ => none) []).cacheAfter = [] ∧
    (Youtube.handler (some "bad") 0 (fun _ => none) (fun _ => exYoutubeParsed)
      (fun _ => none) (fun _ => none) []).calls = [] :=
  youtube_invalid_channel_rejected "bad" (Or.inr (by decide)) 0 (fun _ => none)
    (fun _ => exYoutubeParsed) (fun _ => none) (fun _ => none) []

/-- C9: when scraping finds no TikTok/Instagram user, the handler still
answers 200 with `user:null` and a non-empty `_notice`, never an error
status. -/
theorem scrape_failure_soft_200
    (tu : String) (tvp : Option String) (tnow : Int)
    (tsc : String → Option Tiktok.TikTokUser) (tfe : String → Option Tiktok.Embed)
    (tcache : Cache Tiktok.Data)
    (hts : tsc tu = none)
    (htm : cacheFresh tcache (Tiktok.cacheKey tu (Tiktok.splitVideoIds tvp)) tnow
      Tiktok.CACHE_TTL = none)
    (iu : String) (ipp : Option String) (inow : Int)
    (isc : String → Option Instagram.InstagramUser)
    (ife : String → Option Instagram.InstagramPost)
    (icache : Cache Instagram.Data)
    (his : isc iu = none)
    (him : cacheFresh icache (Instagram.cacheKey iu (Instagram.splitPostIds ipp)) inow
      Instagram.CACHE_TTL = none) :
    (Tiktok.handler (some tu) tvp tnow tsc tfe tcache).status = 200 ∧
    (∃ vids, (Tiktok.handler (some tu) tvp tnow tsc tfe tcache).body =
      RespBody.payload { user := none, videos := vids, _notice := some Tiktok.scrapeNotice }
        false) ∧
    Tiktok.scrapeNotice ≠ "" ∧
    (Instagram.handler (some iu) ipp inow isc ife icache).status = 200 ∧
    (∃ posts, (Instagram.handler (some iu) ipp inow isc ife icache).body =
      RespBody.payload { user := none, posts := posts, _notice := some Instagram.scrapeNotice }
        false) ∧
    Instagram.scrapeNotice ≠ "" := by
  refine ⟨?_,
    ⟨Tiktok.processedVideosFor tu (Tiktok.splitVideoIds tvp) tfe, ?_⟩, by decide, ?_,
    ⟨Instagram.postsFor (Instagram.splitPostIds ipp) ife, ?_⟩, by decide⟩ <;>
    simp [Tiktok.handler, Instagram.handler, hts, htm, his, him]

/-- Witness for C9 at concrete inputs with failing scrapers. -/
theorem scrape_failure_soft_200_witness :
    (Tiktok.handler (some "tk") none 0 (fun _ => none) (fun _ => none) []).status = 200 ∧
    (∃ vids, (Tiktok.handler (some "tk") none 0 (fun _ => none) (fun _ => none) []).body =
      RespBody.payload { user := none, videos := vids, _notice := some Tiktok.scrapeNotice }
        false) ∧
    Tiktok.scrapeNotice ≠ "" ∧
    (Instagram.handler (some "ig") none 0 (fun _ => none) (fun _ => none) []).status = 200 ∧
    (∃ posts, (Instagram.handler (some "ig") none 0 (fun _ => none) (fun _ => none) []).body =
      RespBody.payload { user := none, posts := posts, _notice := some Instagram.scrapeNotice }
        false) ∧
    Instagram.scrapeNotice ≠ "" :=
  scrape_failure_soft_200 "tk" none 0 (fun _ => none) (fun _ => none) [] rfl rfl
    "ig" none 0 (fun _ => none) (fun _ => none) [] rfl rfl

/-- Counterexample to C10 as stated: the two parameters `"a.substack.com.b"`
and `"a.substack.com.b.substack.com"` are equal after the *claimed*
normalization (strip a `.substack.com` suffix, lowercase), yet the code's
replace-first-occurrence normalization sends them to different cache keys and
different upstream URLs. -/
theorem substack_normalization_counterexample :
    Substack.claimedNormalizePublication exPubA =
      Substack.claimedNormalizePublication exPubB ∧
    exPubA ≠ exPubB ∧
    Substack.normalizePublication exPubA ≠ Substack.normalizePublication exPubB ∧
    (Substack.handler (some exPubA) 0 exSubstackFetch exSubstackParse
      exSubstackStats []).cacheAfter ≠
    (Substack.handler (some exPubB) 0 exSubstackFetch exSubstackParse
      exSubstackStats []).cacheAfter ∧
    (Substack.handler (some exPubA) 0 exSubstackFetch exSubstackParse
      exSubstackStats []).calls ≠
    (Substack.handler (some exPubB) 0 exSubstackFetch exSubstackParse
      exSubstackStats []).calls := by
  refine ⟨by decide, by decide, by decide, by decide, by decide⟩

/-- C10 (amended): the Reddit and Substack handlers normalize the parameter
before every cache and upstream access — Reddit strips one leading `u/` and
lowercases, Substack removes the *first occurrence* of `.substack.com`
(case-sensitively, anywhere in the string) and lowercases — so any two
requests whose parameters agree after the code's normalization behave
identically: same responses, same cache keys, same upstream URLs. -/
theorem normalization_determines_cache_key
    (u1 u2 : String) (hr : Reddit.normalizeUsername u1 = Reddit.normalizeUsername u2)
    (q1 q2 : String)
    (hs : Substack.normalizePublication q1 = Substack.normalizePublication q2)
    (now : Int) (fu : String → Option Reddit.RedditUser)
    (fa : String → List Reddit.RedditActivity) (rcache : Cache Reddit.Data)
    (sfr : String → Option String)
    (spr : String → String → Substack.Publication × List Substack.ProcessedPost)
    (sps : String → String → Option Substack.Stats) (scache : Cache Substack.Data) :
    Reddit.handler (some u1) now fu fa rcache =
      Reddit.handler (some u2) now fu fa rcache ∧
    Substack.handler (some q1) now sfr spr sps scache =
      Substack.handler (some q2) now sfr spr sps scache := by
  constructor
  · simp only [Reddit.handler]
    rw [hr]
  · simp only [Substack.handler]
    rw [hs]

/-- Witness for C10's amended theorem: `u/Alice` and `alice`,
`Foo.substack.com` and `foo`. -/
theorem normalization_determines_cache_key_witness :
    Reddit.handler (some "u/Alice") 0 (fun _ => none) (fun _ => []) [] =
      Reddit.handler (some "alice") 0 (fun _ => none) (fun _ => []) [] ∧
    Substack.handler (some "Foo.substack.com") 0 exSubstackFetch exSubstackParse
      exSubstackStats [] =
      Substack.handler (some "foo") 0 exSubstackFetch exSubstackParse
        exSubstackStats [] :=
  normalization_determines_cache_key "u/Alice" "alice" (by decide)
    "Foo.substack.com" "foo" (by decide) 0 (fun _ => none) (fun _ => []) []
    exSubstackFetch exSubstackParse exSubstackStats []
